import Mathlib

/-!
Shallow embedding of the IRDAI RAG chatbot's query-driven scraper
(`src/scrapers/comprehensive_scraper.py`) and proofs about its
query analysis, relevance scoring, routing, strategy selection,
document-quality validation and search-controller loop.

Modelling conventions:
* Python `float` is modelled as `ℚ`.
* Python strings are Lean `String`s; `str.lower`, `str.strip`,
  `str.split()`, substring tests (`in`), `re.findall(r"\b\w+\b", ...)`,
  `re.findall(r"\b(20\d\x7b2\x7d)\b", ...)` and the date/digit checks are
  implemented character-by-character below for the ASCII inputs the
  claims are about (`str.lower` is the identity on the non-ASCII
  characters appearing in the source's keyword tables).
* Network access and HTML parsing (requests + BeautifulSoup) are
  abstracted: a fetched listing page is given by its table structure
  (rows of cells carrying their visible text and link hrefs), and a
  fetched document-detail page by its already-extracted title, content
  and pdf links.  Fetch failures / exceptions are `Option.none`.
* The `fuzzywuzzy` ratios (an optional external library, guarded by
  `FUZZY_AVAILABLE` in the source) are supplied by an environment
  `ScrapeEnv` as arbitrary functions; `ScrapeEnv.Valid` records the
  library's contract that every ratio lies in [0, 100] (here already
  divided by 100, so in [0, 1]).  `fuzzyAvailable := false` is the
  source's import-failure path.
* `time.strftime` values are environment parameters
  (`currentYear`, `scrapedAt`).
-/

namespace IrdaiRag

/-! ## Python string primitives -/

/-- ASCII lower-casing of one character (Python `str.lower` on the
ASCII range; all other characters are returned unchanged). -/
def pyLowerChar (c : Char) : Char :=
  if 'A' ≤ c ∧ c ≤ 'Z' then Char.ofNat (c.toNat + 32) else c

/-- Python `str.lower` (ASCII model). -/
def pyLower (s : String) : String := ⟨s.data.map pyLowerChar⟩

/-- Python whitespace (the characters stripped by `str.strip` and
split on by `str.split()`). -/
def isPySpace (c : Char) : Bool :=
  c = ' ' || c = '\t' || c = '\n' || c = '\r' ||
  c = Char.ofNat 11 || c = Char.ofNat 12

/-- Python `str.strip` on a character list. -/
def pyStripList (l : List Char) : List Char :=
  ((l.dropWhile isPySpace).reverse.dropWhile isPySpace).reverse

/-- Python `str.strip`. -/
def pyStrip (s : String) : String := ⟨pyStripList s.data⟩

/-- Helper for `pySplit`: accumulates the current word (reversed). -/
def pySplitAux : List Char → List Char → List String
  | [], acc => if acc.isEmpty then [] else [⟨acc.reverse⟩]
  | c :: t, acc =>
    if isPySpace c then
      if acc.isEmpty then pySplitAux t [] else ⟨acc.reverse⟩ :: pySplitAux t []
    else pySplitAux t (c :: acc)

/-- Python `str.split()` (split on whitespace runs, no empty parts). -/
def pySplit (s : String) : List String := pySplitAux s.data []

/-- Substring test on character lists (Python `needle in hay`;
note that the empty needle is contained in everything). -/
def isSubstrL (p : List Char) : List Char → Bool
  | [] => p.isEmpty
  | s@(_ :: t) => p.isPrefixOf s || isSubstrL p t

/-- Python `needle in hay` for strings. -/
def isSubstrS (p s : String) : Bool := isSubstrL p.data s.data

/-- Python regex `\w` on the ASCII range. -/
def isWordChar (c : Char) : Bool := c.isAlphanum || c = '_'

/-- ASCII digit. -/
def isDigitCh (c : Char) : Bool := '0' ≤ c ∧ c ≤ '9'

/-- Helper for `pyFindWords`. -/
def findWordsAux : List Char → List Char → List String
  | [], acc => if acc.isEmpty then [] else [⟨acc.reverse⟩]
  | c :: t, acc =>
    if isWordChar c then findWordsAux t (c :: acc)
    else if acc.isEmpty then findWordsAux t [] else ⟨acc.reverse⟩ :: findWordsAux t []

/-- Python `re.findall(r"\b\w+\b", s)`: the maximal runs of word
characters. -/
def pyFindWords (s : String) : List String := findWordsAux s.data []

/-- Helper for `findYears`: left-to-right, non-overlapping scan for
`\b20\d\d\b`, carrying the previous character for the left boundary. -/
def findYearsAux : Option Char → List Char → List String
  | prev, c1 :: c2 :: c3 :: c4 :: rest =>
    if (c1 = '2' : Bool) && (c2 = '0' : Bool) && isDigitCh c3 && isDigitCh c4 &&
       (match prev with | none => true | some p => !isWordChar p) &&
       (match rest with | [] => true | r :: _ => !isWordChar r) then
      String.mk [c1, c2, c3, c4] :: findYearsAux (some c4) rest
    else
      findYearsAux (some c1) (c2 :: c3 :: c4 :: rest)
  | _, _ => []

/-- Python `re.findall(r"\b(20\d\x7b2\x7d)\b", s)`. -/
def findYears (s : String) : List String := findYearsAux none s.data

/-- Python `str.isdigit` (ASCII model). -/
def pyIsDigit (s : String) : Bool := !s.data.isEmpty && s.data.all isDigitCh

/-- `-` or `/`, the separators of the date pattern. -/
def isDateSep (c : Char) : Bool := c = '-' || c = '/'

/-- Splits off the maximal leading digit run, returning its length. -/
def takeDigits : List Char → Nat × List Char
  | c :: t =>
    if isDigitCh c then
      let p := takeDigits t
      (p.1 + 1, p.2)
    else (0, c :: t)
  | [] => (0, [])

/-- Python `re.match` of the anchored date pattern: one or two
digits, a dash-or-slash separator, one or two digits, a separator,
exactly four digits, end of string. -/
def matchDatePattern (s : String) : Bool :=
  let p1 := takeDigits s.data
  if !(p1.1 = 1 || p1.1 = 2 : Bool) then false else
  match p1.2 with
  | c :: r2 =>
    if !isDateSep c then false else
    let p2 := takeDigits r2
    if !(p2.1 = 1 || p2.1 = 2 : Bool) then false else
    match p2.2 with
    | c2 :: r4 =>
      if !isDateSep c2 then false else
      let p3 := takeDigits r4
      (p3.1 = 4 : Bool) && p3.2.isEmpty
    | [] => false
  | [] => false

/-- Order-preserving first-occurrence deduplication; models the
source's `list(set(...))` on keyword lists (Python's set iteration
order is unspecified, and nothing the claims depend on reads the
order of the deduplicated list). -/
def dedupFirstAux : List String → List String → List String
  | [], _ => []
  | x :: t, seen =>
    if seen.contains x then dedupFirstAux t seen
    else x :: dedupFirstAux t (x :: seen)

/-- First-occurrence deduplication. -/
def dedupFirst (l : List String) : List String := dedupFirstAux l []

/-! ## Environment: external library values and clock -/

/-- Values the scraper reads from outside the program text: the
`fuzzywuzzy` ratios (already divided by 100), whether that import
succeeded, and the wall clock. -/
structure ScrapeEnv where
  fuzzyAvailable : Bool
  fzTokenSet : String → String → ℚ
  fzPartialR : String → String → ℚ
  fzTokenSortR : String → String → ℚ
  currentYear : Nat
  scrapedAt : String

/-- The `fuzzywuzzy` contract: every ratio is in [0, 100], i.e. in
[0, 1] after the source's division by 100. -/
def ScrapeEnv.Valid (env : ScrapeEnv) : Prop :=
  ∀ a b : String,
    (0 ≤ env.fzTokenSet a b ∧ env.fzTokenSet a b ≤ 1) ∧
    (0 ≤ env.fzPartialR a b ∧ env.fzPartialR a b ≤ 1) ∧
    (0 ≤ env.fzTokenSortR a b ∧ env.fzTokenSortR a b ≤ 1)

/-- An environment with the fuzzy library unavailable (the source's
`ImportError` fallback path). -/
def envNoFuzzy : ScrapeEnv :=
  { fuzzyAvailable := false
    fzTokenSet := fun _ _ => 0
    fzPartialR := fun _ _ => 0
    fzTokenSortR := fun _ _ => 0
    currentYear := 2025
    scrapedAt := "2025-01-01 00:00:00" }

/-! ## `calculate_relevance_score` -/

/-- `+150` for the exact lower-cased query phrase occurring in the
text (source lines 683-688). -/
def exactPhraseComponent (ql tl : String) : ℚ :=
  if isSubstrS ql tl then 150 else 0

/-- `+60` per 4-word sub-phrase of a long (> 5 words) query occurring
in the text (source lines 690-699). -/
def phrase4Component (ql tl : String) : ℚ :=
  let qw := pySplit ql
  if qw.length > 5 then
    (List.range (qw.length - 3)).foldl
      (fun s i =>
        if isSubstrS (String.intercalate " " ((qw.drop i).take 4)) tl then s + 60 else s) 0
  else 0

/-- Title-word matching: fraction of the query's words of length > 3
that occur among the text's words of length > 3, tiered at
0.9 / 0.7 / 0.5 (source lines 701-727). -/
def titleWordComponent (ql tl : String) : ℚ :=
  let qtw := (pySplit ql).filter (fun w => w.length > 3)
  let ttw := (pySplit tl).filter (fun w => w.length > 3)
  let m := (qtw.filter (fun w => ttw.contains w)).length
  let frac : ℚ := if qtw.length = 0 then 0 else (m : ℚ) / (qtw.length : ℚ)
  if frac ≥ 9/10 then 100 else if frac ≥ 7/10 then 70 else if frac ≥ 1/2 then 40 else 0

/-- The administrative document-type boost table of
`calculate_relevance_score` (source lines 729-775), in source order. -/
def documentTypeBoosts : List (List String × ℚ) :=
  [ (["annulment", "cancel", "cancelled", "withdraw", "withdrawn"], 40),
    (["expression of interest", "eoi", "empanelment", "empanel"], 35),
    (["advertising", "advertisement", "marketing", "publicity"], 30),
    (["agencies", "agency", "firms", "companies"], 25),
    (["tender", "bid", "proposal", "procurement"], 30),
    (["guideline", "guidelines", "‡§¶‡§ø‡§∂‡§æ‡§®‡§ø‡§∞‡•ç‡§¶‡•á‡§∂"], 30),
    (["circular", "‡§™‡§∞‡§ø‡§™‡§§‡•ç‡§∞"], 25),
    (["notification", "notice", "announcement"], 25),
    (["remuneration", "‡§™‡§æ‡§∞‡§ø‡§∂‡•ç‡§∞‡§Æ‡§ø‡§ï"], 20),
    (["directors", "‡§®‡§ø‡§¶‡•á‡§∂‡§ï"], 15),
    (["key managerial", "‡§™‡•ç‡§∞‡§Æ‡•Å‡§ñ ‡§™‡•ç‡§∞‡§¨‡§Ç‡§ß‡§ï‡•Ä‡§Ø"], 15) ]

/-- A boost is added when both the query and the text mention one of
the type's keywords (source lines 777-785). -/
def typeBoostComponent (ql tl : String) : ℚ :=
  documentTypeBoosts.foldl
    (fun s kb =>
      if kb.1.any (fun k => isSubstrS k ql) && kb.1.any (fun k => isSubstrS k tl)
      then s + kb.2 else s) 0

/-- `+25` per year mentioned in the query (with multiplicity) that is
also mentioned in the text; applied to the un-normalised arguments
(source lines 787-795). -/
def yearMatchComponent (query text : String) : ℚ :=
  let qy := findYears query
  let ty := findYears text
  qy.foldl (fun s y => if ty.contains y then s + 25 else s) 0

/-- The fuzzy-matching contribution, present only when the
`fuzzywuzzy` import succeeded (source lines 797-809). -/
def fuzzyComponent (env : ScrapeEnv) (ql tl : String) : ℚ :=
  if env.fuzzyAvailable then
    env.fzTokenSet ql tl * 8 + env.fzPartialR ql tl * 6 + env.fzTokenSortR ql tl * 5
  else 0

/-- `+3` per query word of length > 2 occurring in the text as a
substring, with a 0.8 / 0.6 match-fraction bonus
(source lines 813-831). -/
def wordMatchComponent (ql tl : String) : ℚ :=
  let qws := (pySplit ql).filter (fun w => w.length > 2)
  let m := (qws.filter (fun w => isSubstrS w tl)).length
  let frac : ℚ := if qws.length = 0 then 0 else (m : ℚ) / (qws.length : ℚ)
  3 * m + (if frac ≥ 4/5 then 15 else if frac ≥ 3/5 then 8 else 0)

/-- Generic page names penalised at the end of scoring
(source line 834). -/
def genericPenaltyTerms : List String :=
  ["media gallery", "photo gallery", "about us", "contact", "home"]

/-- Sequential `score = max(0, score - 5)` per penalty term present in
the text (source lines 833-837). -/
def applyGenericPenalties (tl : String) (s : ℚ) : ℚ :=
  genericPenaltyTerms.foldl
    (fun acc term => if isSubstrS term tl then max 0 (acc - 5) else acc) s

/-- `ComprehensiveScraper.calculate_relevance_score` (source lines
671-848): additive feature scoring normalised by
`min(score / 180, 1.0)`, returning 0 when either argument is empty
after stripping. -/
def calculate_relevance_score (env : ScrapeEnv) (text query : String) : ℚ :=
  if pyStrip query = "" ∨ pyStrip text = "" then 0
  else
    let ql := pyStrip (pyLower query)
    let tl := pyStrip (pyLower text)
    let raw :=
      exactPhraseComponent ql tl + phrase4Component ql tl + titleWordComponent ql tl +
      typeBoostComponent ql tl + yearMatchComponent query text +
      fuzzyComponent env ql tl + wordMatchComponent ql tl
    min (applyGenericPenalties tl raw / 180) 1

/-! ## `QueryIntent` and `QueryAnalyzer` -/

/-- The `QueryIntent` dataclass (source lines 66-75). -/
structure QueryIntent where
  intent_type : String
  keywords : List String
  document_types : List String
  time_sensitivity : String
  target_year : Option String := none
  urgency_level : String := "medium"
  confidence_score : ℚ := 0
  deriving DecidableEq, Repr

/-- `QueryAnalyzer.document_type_patterns` (source lines 81-90),
in source order. -/
def documentTypePatterns : List (String × List String) :=
  [ ("regulation", ["regulation", "regulatory", "rule", "rules"]),
    ("circular", ["circular", "master circular"]),
    ("guideline", ["guideline", "guidelines", "guidance"]),
    ("notification", ["notification", "notice", "announcement"]),
    ("act", ["act", "amendment act", "insurance act"]),
    ("order", ["order", "directive"]),
    ("policy", ["policy", "policy document"]),
    ("report", ["report", "annual report", "financial report"]) ]

/-- `time_indicators["latest"]` (source line 93). -/
def latestIndicators : List String :=
  ["latest", "recent", "new", "current", "updated", "2024", "2025"]

/-- `time_indicators["historical"]` (source line 95). -/
def historicalIndicators : List String := ["old", "previous", "archived", "earlier"]

/-- `QueryAnalyzer.urgency_indicators` (source lines 98-103),
in source (dict) order. -/
def urgencyIndicators : List (String × List String) :=
  [ ("critical", ["urgent", "immediate", "emergency", "critical"]),
    ("high", ["important", "priority", "needed", "required"]),
    ("medium", ["please", "help", "find", "search"]),
    ("low", ["general", "overview", "about"]) ]

/-- The harmful-content denylist (source line 121). -/
def harmfulPatterns : List String := ["delete", "remove", "hack", "exploit", "inject"]

/-- Stop words removed by `_extract_keywords` (source line 166). -/
def stopWords : List String :=
  ["the", "a", "an", "and", "or", "but", "in", "on", "at", "to", "for",
   "of", "with", "by", "is", "are", "was", "were"]

/-- `important_phrases` of `_extract_keywords` (source lines 173-177). -/
def importantPhrases : List String :=
  ["regional rural bank", "unit linked", "motor vehicle", "third party",
   "life insurance", "general insurance", "health insurance",
   "expression of interest", "key managerial", "corporate governance"]

/-- `QueryAnalyzer._extract_keywords` (source lines 163-183): word
extraction minus stop words, extended by split important phrases,
then deduplicated (`list(set(...))`, modelled first-occurrence). -/
def extractKeywords (query : String) : List String :=
  let words := pyFindWords (pyLower query)
  let kws := words.filter (fun w => !stopWords.contains w && w.length > 2)
  let withPhrases :=
    importantPhrases.foldl
      (fun acc p => if isSubstrS p (pyLower query) then acc ++ pySplit p else acc) kws
  dedupFirst withPhrases

/-- `QueryAnalyzer._detect_document_types` (source lines 185-193). -/
def detectDocumentTypes (query : String) : List String :=
  (documentTypePatterns.filter
    (fun dp => dp.2.any (fun p => isSubstrS p query))).map (·.1)

/-- `QueryAnalyzer._analyze_time_sensitivity` (source lines 195-210). -/
def analyzeTimeSensitivity (query : String) : String × Option String :=
  if latestIndicators.any (fun i => isSubstrS i query) then ("latest", none)
  else
    match findYears query with
    | y :: _ => ("specific_year", some y)
    | [] =>
      if historicalIndicators.any (fun i => isSubstrS i query) then ("historical", none)
      else ("any_time", none)

/-- `QueryAnalyzer._determine_intent_type` (source lines 212-229). -/
def determineIntentType (query : String) (keywords document_types : List String) : String :=
  if keywords.length > 8 ||
     (["guidelines on", "procedure for", "rules for"].any (fun p => isSubstrS p query)) ||
     isSubstrS "document id" (pyLower query) then "specific_document"
  else if ["latest", "recent", "new", "updated", "current"].any
      (fun w => isSubstrS w query) then "latest_updates"
  else if !document_types.isEmpty &&
      document_types.any (fun d => ["regulation", "guideline", "circular"].contains d) then
    "regulatory_guidance"
  else "general_search"

/-- `QueryAnalyzer._calculate_urgency` (source lines 231-236). -/
def calculateUrgency (query : String) : String :=
  match urgencyIndicators.find? (fun ui => ui.2.any (fun i => isSubstrS i query)) with
  | some ui => ui.1
  | none => "medium"

/-- The specific patterns boosting intent confidence
(source line 252). -/
def confidencePatterns : List String :=
  ["regulation", "circular", "guideline", "irdai", "insurance"]

/-- `QueryAnalyzer._calculate_intent_confidence`
(source lines 238-257). -/
def calculateIntentConfidence
    (query : String) (keywords document_types : List String) : ℚ :=
  let c1 : ℚ := if keywords.length ≥ 3 then 3/10 else 0
  let c2 : ℚ := if keywords.length ≥ 6 then 2/10 else 0
  let c3 : ℚ := (document_types.length : ℚ) * (1/10)
  let c4 : ℚ :=
    confidencePatterns.foldl
      (fun s p => if isSubstrS p query then s + 1/10 else s) 0
  min (c1 + c2 + c3 + c4) 1

/-- `QueryAnalyzer.analyze_query` (source lines 105-161): guard rails
for empty/short and harmful queries, then keyword, type, time,
intent, urgency and confidence analysis. -/
def analyze_query (query : String) : QueryIntent :=
  let ql := pyStrip (pyLower query)
  if query = "" ∨ (pyStrip query).length < 3 then
    { intent_type := "invalid", keywords := [], document_types := []
      time_sensitivity := "any_time", confidence_score := 0 }
  else if harmfulPatterns.any (fun p => isSubstrS p ql) then
    { intent_type := "blocked", keywords := [], document_types := []
      time_sensitivity := "any_time", confidence_score := 0 }
  else
    let keywords := extractKeywords ql
    let document_types := detectDocumentTypes ql
    let ts := analyzeTimeSensitivity ql
    { intent_type := determineIntentType ql keywords document_types
      keywords := keywords
      document_types := document_types
      time_sensitivity := ts.1
      target_year := ts.2
      urgency_level := calculateUrgency ql
      confidence_score := calculateIntentConfidence ql keywords document_types }

/-! ## Search strategy -/

/-- The strategy dictionary produced by `determine_search_strategy`
(source lines 1497-1554).  `priority_routes` is set but never
updated, so it is omitted here; `focus_mode` is carried for
completeness. -/
structure SearchStrategy where
  search_depth : Nat
  max_documents : Nat
  early_stop_threshold : ℚ
  document_filters : List String
  time_filter : Option String
  focus_mode : String
  deriving DecidableEq, Repr

/-- `ComprehensiveScraper.determine_search_strategy` (source lines
1497-1554): intent-type defaults followed by urgency overrides. -/
def determine_search_strategy (qi : QueryIntent) : SearchStrategy :=
  let base : SearchStrategy :=
    if qi.intent_type = "specific_document" then
      { search_depth := 3, max_documents := 20, early_stop_threshold := 98/100
        document_filters := [], time_filter := none, focus_mode := "precision" }
    else if qi.intent_type = "latest_updates" then
      { search_depth := 2, max_documents := 30, early_stop_threshold := 95/100
        document_filters := [], time_filter := some "recent", focus_mode := "recency" }
    else if qi.intent_type = "regulatory_guidance" then
      { search_depth := 3, max_documents := 40, early_stop_threshold := 95/100
        document_filters := ["regulation", "circular", "guideline"]
        time_filter := none, focus_mode := "authority" }
    else
      { search_depth := 2, max_documents := 50, early_stop_threshold := 95/100
        document_filters := [], time_filter := none, focus_mode := "comprehensive" }
  if qi.urgency_level = "critical" then
    { base with early_stop_threshold := 90/100, max_documents := min base.max_documents 15 }
  else if qi.urgency_level = "high" then
    { base with early_stop_threshold := 93/100, max_documents := min base.max_documents 25 }
  else base

/-- `ComprehensiveScraper.get_intent_based_threshold`
(source lines 1764-1773). -/
def get_intent_based_threshold (qi : QueryIntent) : ℚ :=
  if qi.intent_type = "specific_document" then 2/100
  else if qi.intent_type = "latest_updates" then 5/100
  else if qi.intent_type = "regulatory_guidance" then 3/100
  else 5/100

/-! ## Route planning -/

/-- The `intelligent_routing` table of `website_configs["irdai"]`
(source lines 294-361), in source (dict) order:
route name, keywords, primary urls. -/
def intelligentRouting : List (String × List String × List String) :=
  [ ("rrb_amalgamation",
     (["rrb", "regional rural bank", "amalgamat", "corporate agency", "may 2025"],
      ["/consolidated-gazette-notified-regulations", "/circulars", "/notifications"])),
    ("ulip",
     (["ulip", "unit linked", "unit-linked", "investment plan"],
      ["/consolidated-gazette-notified-regulations", "/guidelines", "/circulars"])),
    ("acts",
     (["act", "amendment act", "insurance laws", "insurance act", "irdai act"],
      ["/acts", "/insurance-acts", "/rules", "/consolidated-gazette-notified-regulations"])),
    ("rules",
     (["rules", "motor vehicle", "third party", "liability rules", "base premium"],
      ["/rules", "/notifications", "/consolidated-gazette-notified-regulations"])),
    ("regulations",
     (["regulation", "irdai regulation", "corporate governance", "solvency"],
      ["/consolidated-gazette-notified-regulations", "/updated-regulations", "/regulations"])),
    ("circulars",
     (["circular", "master circular", "guidelines"],
      ["/circulars", "/notifications", "/guidelines"])),
    ("notifications",
     (["notification", "press release", "announcement"],
      ["/notifications", "/press-releases", "/announcements"])),
    ("financial",
     (["obligatory cession", "financial year", "annual report", "budget"],
      ["/annual-reports", "/notifications", "/consolidated-gazette-notified-regulations"])) ]

/-- `website_configs["irdai"]["start_pages"]` (source lines 362-368). -/
def irdaiStartPages : List String :=
  ["/acts", "/rules", "/consolidated-gazette-notified-regulations",
   "/updated-regulations", "/notifications"]

/-- Score of one routing entry for a query: per contained keyword,
`3 * (number of words in the keyword)`, plus 10 when the whole query
equals the keyword (source lines 1293-1302). -/
def routeScore (ql : String) (keywords : List String) : ℚ :=
  keywords.foldl
    (fun s kw =>
      if isSubstrS kw ql then
        s + (3 * (pySplit kw).length + if ql = kw then 10 else 0 : ℚ)
      else s) 0

/-- Stable descending insertion into a list sorted by a rational key,
modelling Python's stable `sort(key=..., reverse=True)`. -/
def insertDescBy {α : Type} (key : α → ℚ) (x : α) : List α → List α
  | [] => [x]
  | y :: ys => if key x ≥ key y then x :: y :: ys else y :: insertDescBy key x ys

/-- Stable sort, descending by a rational key (Python
`list.sort(key=..., reverse=True)`). -/
def stableSortDescBy {α : Type} (key : α → ℚ) : List α → List α
  | [] => []
  | x :: xs => insertDescBy key x (stableSortDescBy key xs)

/-- Order-preserving url deduplication (source lines 1315-1321). -/
def dedupUrls (urls : List String) : List String := dedupFirst urls

/-- `ComprehensiveScraper.determine_intelligent_route` (source lines
1261-1327): early returns for empty, latest and guideline queries,
otherwise keyword-scored route selection capped at 3. -/
def determine_intelligent_route (query : String) : List String :=
  if query = "" then irdaiStartPages
  else
    let ql := pyStrip (pyLower query)
    if ["latest", "recent", "new", "updated", "current"].any
        (fun t => isSubstrS t ql) then
      ["/guidelines", "/circulars", "/notifications",
       "/consolidated-gazette-notified-regulations"]
    else if isSubstrS "guideline" ql || isSubstrS "guidelines" ql then
      ["/guidelines", "/consolidated-gazette-notified-regulations", "/circulars"]
    else
      let scored := intelligentRouting.map (fun r => (r, routeScore ql r.2.1))
      let sortedRoutes := stableSortDescBy (·.2) scored
      let maxScore : ℚ := match sortedRoutes with
        | [] => 0
        | s :: _ => s.2
      let selected :=
        if maxScore > 0 then
          ((sortedRoutes.filter (fun s => s.2 ≥ maxScore * (4/10))).map
            (fun s => s.1.2.2)).flatten
        else []
      let uniq := dedupUrls selected
      let uniq := if uniq.isEmpty then irdaiStartPages else uniq
      uniq.take 3

/-- `ComprehensiveScraper.determine_intelligent_route_enhanced`
(source lines 1775-1793): intent-specific routes prepended to the
base routes, capped at 4. -/
def determine_intelligent_route_enhanced (query : String) (qi : QueryIntent) :
    List String :=
  let base := determine_intelligent_route query
  let base :=
    if qi.time_sensitivity = "latest" then
      let latestRoutes := ["/notifications", "/circulars", "/updated-regulations"]
      latestRoutes ++ base.filter (fun r => !latestRoutes.contains r)
    else base
  let base :=
    if qi.document_types.contains "regulation" then
      let regulationRoutes :=
        ["/consolidated-gazette-notified-regulations", "/updated-regulations"]
      regulationRoutes ++ base.filter (fun r => !regulationRoutes.contains r)
    else base
  let base :=
    if qi.document_types.contains "circular" then
      let circularRoutes := ["/circulars", "/notifications"]
      circularRoutes ++ base.filter (fun r => !circularRoutes.contains r)
    else base
  base.take 4

/-! ## Intent-aware relevance scoring -/

/-- `ComprehensiveScraper.enhanced_relevance_scoring` (source lines
1556-1602): base score on the space-joined keywords plus intent
bonuses (document types, recency or target year, keyword density),
clamped to [0, 1].  The `query_intent is None` guard of the source
cannot arise here because intents are always constructed. -/
def enhanced_relevance_scoring (env : ScrapeEnv) (text : String) (qi : QueryIntent) : ℚ :=
  if pyStrip text = "" then 0
  else
    let query := String.intercalate " " qi.keywords
    let baseScore := calculate_relevance_score env text query
    let typeBonus : ℚ :=
      qi.document_types.foldl
        (fun s dt => if isSubstrS (pyLower dt) (pyLower text) then s + 15/100 else s) 0
    let timeBonus : ℚ :=
      if qi.time_sensitivity = "latest" then
        [toString env.currentYear, toString (env.currentYear - 1)].foldl
          (fun s y => if isSubstrS y text then s + 1/10 else s) 0
      else
        match qi.target_year with
        | some y => if isSubstrS y text then 2/10 else 0
        | none => 0
    let densityBonus : ℚ :=
      if qi.keywords.length > 0 then
        ((qi.keywords.filter (fun k => isSubstrS (pyLower k) (pyLower text))).length : ℚ)
          / (qi.keywords.length : ℚ) * (1/10)
      else 0
    let finalScore := min (baseScore + (typeBonus + timeBonus + densityBonus)) 1
    if finalScore > 1 then 1 else if finalScore < 0 then 0 else finalScore

/-- `ComprehensiveScraper.apply_time_boost` (source lines 2008-2018). -/
def apply_time_boost (env : ScrapeEnv) (score : ℚ) (text : String) : ℚ :=
  let boost :=
    [toString env.currentYear, toString (env.currentYear - 1)].foldl
      (fun s y => if isSubstrS y text then s + 1/10 else s) (0 : ℚ)
  min (score + boost) 1

/-- `ComprehensiveScraper.apply_year_boost` (source lines 2020-2024). -/
def apply_year_boost (score : ℚ) (text : String) (targetYear : String) : ℚ :=
  if isSubstrS targetYear text then min (score + 2/10) 1 else score

/-! ## Detail-page relevance -/

/-- Python `re.sub(r"[^\w\s]", " ", s)`: every character that is
neither a word character nor whitespace becomes a space. -/
def replaceNonWordBySpace (s : String) : String :=
  ⟨s.data.map (fun c => if isWordChar c || isPySpace c then c else ' ')⟩

/-- The punctuation normalisation used by the exact-title check of
`extract_irdai_document_detail_page` (source lines 991-992):
lower-case, replace punctuation by spaces, strip. -/
def cleanForTitleMatch (s : String) : String :=
  pyStrip (replaceNonWordBySpace (pyLower s))

/-- The exact-title condition of source line 995: after cleaning, the
query is contained in the title or the title in the query. -/
def exactTitleCondition (query title : String) : Bool :=
  isSubstrS (cleanForTitleMatch query) (cleanForTitleMatch title) ||
  isSubstrS (cleanForTitleMatch title) (cleanForTitleMatch query)

/-- The relevance score produced by
`extract_irdai_document_detail_page` (source lines 978-997) for an
extracted title and content: the base score on `title + " " + content`
followed by the exact-title boost to at least 0.95 when both the query
and the title are non-empty and the cleaned strings contain one
another.  (The surrounding HTML/PDF extraction is abstracted: `title`
and `content` are the already-extracted values the score is computed
from.) -/
def detailPageRelevance (env : ScrapeEnv) (title content query : String) : ℚ :=
  let fullText := title ++ " " ++ content
  let rel := calculate_relevance_score env fullText query
  if query ≠ "" && title ≠ "" && exactTitleCondition query title then
    max rel (95/100)
  else rel

/-- The relevance score produced by
`extract_irdai_document_detail_page_enhanced` (source lines
1944-1982): intent-aware scoring of `title + " " + content` plus the
time or target-year boost; this variant has no exact-title boost. -/
def detailPageRelevanceEnhanced (env : ScrapeEnv) (qi : QueryIntent)
    (title content : String) : ℚ :=
  let fullText := title ++ " " ++ content
  let rel := enhanced_relevance_scoring env fullText qi
  if qi.time_sensitivity = "latest" then apply_time_boost env rel fullText
  else
    match qi.target_year with
    | some y => apply_year_boost rel fullText y
    | none => rel

/-! ## Dynamic values and `validate_document_quality` -/

/-- A dynamically-typed Python value, as stored in the candidate
dictionaries `validate_document_quality` receives. -/
inductive PyVal where
  | vNone : PyVal
  | vStr : String → PyVal
  | vNum : ℚ → PyVal
  | vBool : Bool → PyVal
  | vList : List String → PyVal
  deriving DecidableEq, Repr

/-- A Python dict with string keys. -/
def PyDict := List (String × PyVal)

/-- `d.get(k, default)`. -/
def pyGet (d : PyDict) (k : String) (default : PyVal) : PyVal :=
  match d.find? (fun kv => kv.1 = k) with
  | some kv => kv.2
  | none => default

/-- Python truthiness. -/
def pyTruthy : PyVal → Bool
  | .vNone => false
  | .vStr s => s ≠ ""
  | .vNum q => q ≠ 0
  | .vBool b => b
  | .vList l => !l.isEmpty

/-- Using a value as a string (`.strip()`, `.lower()`,
`.startswith(...)`): raises `AttributeError` on non-strings. -/
def asStr : PyVal → Except Unit String
  | .vStr s => .ok s
  | _ => .error ()

/-- Using a value in a numeric comparison against a float: raises
`TypeError` unless it is a number or a bool. -/
def asNum : PyVal → Except Unit ℚ
  | .vNum q => .ok q
  | .vBool b => .ok (if b then 1 else 0)
  | _ => .error ()

/-- The spam indicators of `validate_document_quality`
(source line 1622). -/
def spamIndicators : List String := ["click here", "buy now", "limited time", "act fast"]

/-- The body of `validate_document_quality` inside its `try`
(source lines 1607-1632); each Python operation that can raise is a
`match` whose `.error` is the raised exception. -/
def validateDocumentQualityBody (document : PyDict) : Except Unit Bool :=
  if !pyTruthy (pyGet document "title" .vNone) ||
     !pyTruthy (pyGet document "url" .vNone) then
    .ok false
  else
    match asStr (pyGet document "content" (.vStr "")) with
    | .error e => .error e
    | .ok content =>
      if (pyStrip content).length < 50 then .ok false
      else
        match asStr (pyGet document "url" (.vStr "")) with
        | .error e => .error e
        | .ok url =>
          if !("http://".data.isPrefixOf url.data ||
               "https://".data.isPrefixOf url.data) then .ok false
          else
            match asStr (pyGet document "title" (.vStr "")) with
            | .error e => .error e
            | .ok title =>
              if spamIndicators.any (fun ind => isSubstrS ind (pyLower title)) then
                .ok false
              else
                match asNum (pyGet document "relevance_score" (.vNum 0)) with
                | .error e => .error e
                | .ok relevance => if relevance < 1/100 then .ok false else .ok true

/-- `ComprehensiveScraper.validate_document_quality` (source lines
1604-1636): the body's result, with any raised exception caught and
turned into `false`. -/
def validate_document_quality (document : PyDict) : Bool :=
  match validateDocumentQualityBody document with
  | .ok b => b
  | .error _ => false

/-! ## Abstracted pages and link extraction -/

/-- A table cell of a fetched listing page: its text (the model of
`cell.get("title", "").strip() or cell.get_text(strip=True)`) and the
href attributes of its `a` descendants. -/
structure PageCell where
  text : String
  hrefs : List String
  deriving DecidableEq, Repr

/-- A table row. -/
structure PageRow where
  cells : List PageCell
  deriving DecidableEq, Repr

/-- A table. -/
structure PageTable where
  rows : List PageRow
  deriving DecidableEq, Repr

/-- A fetched listing page, abstracted to its tables. -/
structure ListingPage where
  tables : List PageTable
  deriving DecidableEq, Repr

/-- A fetched document-detail page, abstracted to the title, content
and pdf links its HTML-selector extraction produces. -/
structure DetailPageRaw where
  title : String
  content : String
  pdfLinks : List String
  deriving DecidableEq, Repr

/-- `urllib.parse.urljoin`, restricted to the shapes the scraper
uses: absolute hrefs are returned unchanged, root-relative hrefs are
appended to the scheme-and-host base url. -/
def urljoinModel (base href : String) : String :=
  if "http://".data.isPrefixOf href.data || "https://".data.isPrefixOf href.data
  then href else base ++ href

/-- `re.search(r"documentId=(\d+)", url)`: the first occurrence of
`documentId=` followed by at least one digit yields the maximal digit
run after it. -/
def findDocumentId : List Char → Option String
  | [] => none
  | s@(_ :: t) =>
    if "documentId=".data.isPrefixOf s then
      let digits := (s.drop 11).takeWhile isDigitCh
      if digits.isEmpty then findDocumentId t else some ⟨digits⟩
    else findDocumentId t

/-- The detail-page dictionary returned by
`extract_irdai_document_detail_page_enhanced`. -/
structure DetailData where
  url : String
  title : String
  content : String
  pdf_links : List String
  relevance_score : ℚ
  deriving DecidableEq, Repr

/-- `extract_irdai_document_detail_page_enhanced` (source lines
1944-1982): fetches the detail page (`none` models a request failure
caught by the surrounding `except`) and scores its extracted title
and content; its `query` parameter does not enter the score, which
only uses the intent. -/
def extract_irdai_document_detail_page_enhanced (env : ScrapeEnv) (qi : QueryIntent)
    (detailFetch : String → Option DetailPageRaw) (url : String) : Option DetailData :=
  (detailFetch url).map fun dp =>
    { url := url, title := dp.title, content := dp.content, pdf_links := dp.pdfLinks
      relevance_score := detailPageRelevanceEnhanced env qi dp.title dp.content }

/-! ## `extract_irdai_documents_enhanced_with_intent` -/

/-- The extraction-result dictionaries of
`extract_irdai_documents_enhanced_with_intent` (source lines
1925-1940; the nested `metadata` sub-dictionary, which no later stage
reads, is omitted). -/
structure DocInfo where
  url : String
  title : String
  relevance_score : ℚ
  extraction_pattern : String
  document_id : Option String
  pdf_links : List String
  content : String
  deriving DecidableEq, Repr

/-- Title candidates of one row (source lines 1877-1890): cell texts
of length in (15, 800) that are not pure digit strings or dates,
paired with their intent-aware relevance. -/
def rowTitleCandidates (env : ScrapeEnv) (qi : QueryIntent) (cells : List PageCell) :
    List (String × ℚ) :=
  cells.filterMap fun cell =>
    if cell.text.length > 15 && cell.text.length < 800 &&
       !pyIsDigit cell.text && !matchDatePattern cell.text then
      some (cell.text, enhanced_relevance_scoring env cell.text qi)
    else none

/-- Document-detail links of one row (source lines 1892-1897). -/
def rowDocumentLinks (baseUrl : String) (cells : List PageCell) : List String :=
  (cells.map fun cell =>
    cell.hrefs.filterMap fun href =>
      if isSubstrS "document-detail" href && isSubstrS "documentId=" href then
        some (urljoinModel baseUrl href)
      else none).flatten

/-- Best title candidate and its score (source lines 1910-1913):
the row's candidates are sorted by relevance, descending and stable,
and the head is taken; an empty candidate list gives the empty title
with score 0. -/
def bestCellTitle (candidates : List (String × ℚ)) : String × ℚ :=
  match stableSortDescBy (·.2) candidates with
  | [] => ("", 0)
  | c :: _ => c

/-- Final title selection (source line 1920): the detail-page title
when it out-scored the best cell candidate, the cell candidate
otherwise. -/
def chooseTitle (dd : DetailData) (best : String × ℚ) : String :=
  if dd.relevance_score > best.2 then dd.title else best.1

/-- The document dictionary appended for one accepted link
(source lines 1925-1940). -/
def mkRowDocInfo (link docId : String) (dd : DetailData) (best : String × ℚ) : DocInfo :=
  { url := link, title := chooseTitle dd best
    relevance_score := max best.2 dd.relevance_score
    extraction_pattern := "intent_aware_table_detail"
    document_id := some docId, pdf_links := dd.pdf_links
    content := dd.content }

/-- Processing of one row's document links (source lines 1899-1940):
per-identifier deduplication against the accumulated `processed`
set, best-title selection, detail-page extraction and thresholding. -/
def processRowLinks (env : ScrapeEnv) (qi : QueryIntent)
    (detailFetch : String → Option DetailPageRaw)
    (candidates : List (String × ℚ)) :
    List String → List String → List DocInfo × List String
  | [], processed => ([], processed)
  | link :: rest, processed =>
    match findDocumentId link.data with
    | none => processRowLinks env qi detailFetch candidates rest processed
    | some docId =>
      if processed.contains docId then
        processRowLinks env qi detailFetch candidates rest processed
      else
        let processed := docId :: processed
        let best := bestCellTitle candidates
        match extract_irdai_document_detail_page_enhanced env qi detailFetch link with
        | none => processRowLinks env qi detailFetch candidates rest processed
        | some dd =>
          if max best.2 dd.relevance_score ≥ get_intent_based_threshold qi &&
             chooseTitle dd best ≠ "" then
            let p := processRowLinks env qi detailFetch candidates rest processed
            (mkRowDocInfo link docId dd best :: p.1, p.2)
          else processRowLinks env qi detailFetch candidates rest processed

/-- One row's contribution (source lines 1869-1940): rows with fewer
than 2 cells are skipped (the source's `continue`), otherwise the
row's title candidates and detail links are processed. -/
def processRow (env : ScrapeEnv) (qi : QueryIntent)
    (detailFetch : String → Option DetailPageRaw) (baseUrl : String)
    (row : PageRow) (processed : List String) : List DocInfo × List String :=
  if row.cells.length < 2 then ([], processed)
  else
    processRowLinks env qi detailFetch (rowTitleCandidates env qi row.cells)
      (rowDocumentLinks baseUrl row.cells) processed

/-- Processing of one table (source lines 1862-1940): optional
truncation to the first 20 rows for latest-sensitivity queries,
header row skipped. -/
def processTable (env : ScrapeEnv) (qi : QueryIntent)
    (detailFetch : String → Option DetailPageRaw) (baseUrl : String)
    (table : PageTable) (processed : List String) : List DocInfo × List String :=
  let rows :=
    if qi.time_sensitivity = "latest" && table.rows.length > 20
    then table.rows.take 20 else table.rows
  (rows.drop 1).foldl
    (fun a row =>
      let p := processRow env qi detailFetch baseUrl row a.2
      (a.1 ++ p.1, p.2))
    ([], processed)

/-- `extract_irdai_documents_enhanced_with_intent` (source lines
1842-1942): all tables of the page, sharing one `processed_doc_ids`
set local to this call. -/
def extract_irdai_documents_enhanced_with_intent (env : ScrapeEnv) (qi : QueryIntent)
    (detailFetch : String → Option DetailPageRaw) (baseUrl : String)
    (page : ListingPage) : List DocInfo :=
  (page.tables.foldl
    (fun acc table =>
      let p := processTable env qi detailFetch baseUrl table acc.2
      (acc.1 ++ p.1, p.2))
    (([], []) : List DocInfo × List String)).1

/-! ## `create_enhanced_document` -/

/-- ASCII upper-casing of one character. -/
def pyUpperChar (c : Char) : Char :=
  if 'a' ≤ c ∧ c ≤ 'z' then Char.ofNat (c.toNat - 32) else c

/-- Helper for `pyTitleCase`, carrying whether the previous character
was alphabetic. -/
def pyTitleAux : Bool → List Char → List Char
  | _, [] => []
  | prevAlpha, c :: t =>
    let c2 := if c.isAlpha then (if prevAlpha then pyLowerChar c else pyUpperChar c) else c
    c2 :: pyTitleAux c.isAlpha t

/-- Python `str.title` (ASCII model). -/
def pyTitleCase (s : String) : String := ⟨pyTitleAux false s.data⟩

/-- Python `s.replace("_", " ")`. -/
def replaceUnderscoreBySpace (s : String) : String :=
  ⟨s.data.map (fun c => if c = '_' then ' ' else c)⟩

/-- Python `f"..{x:.3f}.."` for the non-negative scores appearing in
the generated document texts, modelled with round-half-up at the
third decimal (Python rounds the underlying binary float to even;
every value this file evaluates it on is exact at 3 decimals or far
from a tie). -/
def formatQ3 (q : ℚ) : String :=
  let n : Int := (q * 1000 + 1/2).floor
  let i := n / 1000
  let f := (n % 1000).toNat
  let pad := if f < 10 then "00" else if f < 100 then "0" else ""
  toString i ++ "." ++ pad ++ toString f

/-- The perfect-match content block of `create_enhanced_document`
(source lines 2028-2048). -/
def perfectMatchContent (d : DocInfo) (qi : QueryIntent) : String :=
  "\nüéØ **PERFECT MATCH FOUND!** (Score: " ++ formatQ3 d.relevance_score ++ ")\n\n" ++
  "**Query Intent:** " ++ pyTitleCase (replaceUnderscoreBySpace qi.intent_type) ++ "\n" ++
  "**Time Sensitivity:** " ++ qi.time_sensitivity ++ "\n" ++
  "**Urgency:** " ++ qi.urgency_level ++ "\n\n" ++
  "**Document Title:** " ++ d.title ++ "\n\n" ++
  "**Analysis:**\n" ++
  "- Intent Type: " ++ qi.intent_type ++ "\n" ++
  "- Document Types Detected: " ++ String.intercalate ", " qi.document_types ++ "\n" ++
  "- Keywords Matched: " ++ String.intercalate ", " (qi.keywords.take 10) ++ "\n" ++
  "- Confidence: " ++ formatQ3 qi.confidence_score ++ "\n\n" ++
  "**Content:**\n" ++ d.content ++ "\n\n" ++
  "**System Decision:** Early stopping triggered due to perfect match.\n"

/-- The regular content block of `create_enhanced_document`
(source lines 2049-2062). -/
def regularEnhancedContent (d : DocInfo) (qi : QueryIntent) : String :=
  "\n**Query Intent Analysis:** " ++ pyTitleCase (replaceUnderscoreBySpace qi.intent_type) ++
  "\n**Relevance Score:** " ++ formatQ3 d.relevance_score ++ "\n\n" ++
  d.title ++ "\n\n" ++ d.content ++ "\n\n" ++
  "**Matched Elements:**\n" ++
  "- Document Types: " ++
    (if qi.document_types.isEmpty then "General"
     else String.intercalate ", " qi.document_types) ++ "\n" ++
  "- Time Sensitivity: " ++ qi.time_sensitivity ++ "\n" ++
  "- Keywords: " ++ String.intercalate ", " (qi.keywords.take 5) ++ "\n"

/-- The website configuration fields of `website_configs["irdai"]`
read by document creation. -/
structure SiteConfig where
  base_url : String
  source_type : String
  deriving DecidableEq, Repr

/-- `website_configs["irdai"]` (the fields used downstream). -/
def irdaiConfig : SiteConfig :=
  { base_url := "https://irdai.gov.in", source_type := "regulatory" }

/-- The metadata dictionary attached by `create_enhanced_document`
(source lines 2071-2083). -/
structure DocMetadata where
  scraped_at : String
  document_id : Option String
  relevance_score : ℚ
  query : String
  query_intent : String
  time_sensitivity : String
  urgency_level : String
  document_types : List String
  intent_confidence : ℚ
  is_perfect_match : Bool
  enhanced_processing : Bool
  deriving DecidableEq, Repr

/-- The `ComprehensiveDocument` dataclass (source lines 56-64). -/
structure ComprehensiveDocument where
  url : String
  title : String
  content : String
  source_type : String
  website : String
  document_links : List String
  metadata : DocMetadata
  deriving DecidableEq, Repr

/-- `ComprehensiveScraper.create_enhanced_document` (source lines
2026-2084).  The `page_url` parameter is accepted but, as in the
source, not read. -/
def create_enhanced_document (env : ScrapeEnv) (d : DocInfo) (cfg : SiteConfig)
    (_pageUrl query : String) (qi : QueryIntent) (isPerfectMatch : Bool) :
    ComprehensiveDocument :=
  { url := d.url
    title := d.title
    content := if isPerfectMatch then perfectMatchContent d qi
               else regularEnhancedContent d qi
    source_type := cfg.source_type
    website := cfg.base_url
    document_links := d.url :: d.pdf_links
    metadata :=
      { scraped_at := env.scrapedAt
        document_id := d.document_id
        relevance_score := d.relevance_score
        query := query
        query_intent := qi.intent_type
        time_sensitivity := qi.time_sensitivity
        urgency_level := qi.urgency_level
        document_types := qi.document_types
        intent_confidence := qi.confidence_score
        is_perfect_match := isPerfectMatch
        enhanced_processing := true } }

/-! ## The search-controller loop (`scrape_irdai_comprehensive`) -/

/-- The candidate dictionary as `validate_document_quality` sees it
(in the source both are the same Python dict). -/
def docInfoToDict (d : DocInfo) : PyDict :=
  [ ("url", .vStr d.url), ("title", .vStr d.title),
    ("relevance_score", .vNum d.relevance_score),
    ("extraction_pattern", .vStr d.extraction_pattern),
    ("document_id", match d.document_id with | some i => .vStr i | none => .vNone),
    ("pdf_links", .vList d.pdf_links), ("content", .vStr d.content) ]

/-- The mutable counters of the controller loop:
`documents_processed`, the accumulated `all_documents` and the length
of `high_relevance_documents`. -/
structure LoopState where
  processed : Nat
  docs : List ComprehensiveDocument
  highrel : Nat
  deriving DecidableEq, Repr

/-- Candidate processing within one route (source lines 1700-1736):
budget check, quality validation, intent-aware rescoring, early stop
on a perfect match (the `Except.error` outcome), thresholded
acceptance and high-relevance tracking. -/
def processDocInfos (env : ScrapeEnv) (qi : QueryIntent) (strategy : SearchStrategy)
    (query pageUrl : String) :
    List DocInfo → LoopState → Except ComprehensiveDocument LoopState
  | [], st => .ok st
  | d :: rest, st =>
    if st.processed ≥ strategy.max_documents then .ok st
    else if !validate_document_quality (docInfoToDict d) then
      processDocInfos env qi strategy query pageUrl rest st
    else
      let score := enhanced_relevance_scoring env (d.title ++ " " ++ d.content) qi
      let d2 := { d with relevance_score := score }
      if score ≥ strategy.early_stop_threshold then
        .error (create_enhanced_document env d2 irdaiConfig pageUrl query qi true)
      else if score ≥ get_intent_based_threshold qi then
        processDocInfos env qi strategy query pageUrl rest
          { processed := st.processed + 1
            docs := st.docs ++ [create_enhanced_document env d2 irdaiConfig pageUrl query qi false]
            highrel := st.highrel + (if score ≥ 8/10 then 1 else 0) }
      else processDocInfos env qi strategy query pageUrl rest st

/-- The route loop of `scrape_irdai_comprehensive` (source lines
1681-1748): per-route budget check, fetch (failures/exceptions are
`none` and are skipped), candidate processing, and the early break
when three high-relevance documents were found under critical or high
urgency. -/
def processRoutes (env : ScrapeEnv) (fetch : String → Option ListingPage)
    (detailFetch : String → Option DetailPageRaw) (qi : QueryIntent)
    (strategy : SearchStrategy) (query : String) :
    List String → LoopState → Except ComprehensiveDocument LoopState
  | [], st => .ok st
  | u :: rest, st =>
    if st.processed ≥ strategy.max_documents then .ok st
    else
      let pageUrl := urljoinModel irdaiConfig.base_url u
      match fetch pageUrl with
      | none => processRoutes env fetch detailFetch qi strategy query rest st
      | some page =>
        let docData :=
          extract_irdai_documents_enhanced_with_intent env qi detailFetch
            irdaiConfig.base_url page
        match processDocInfos env qi strategy query pageUrl docData st with
        | .error d => .error d
        | .ok st2 =>
          if st2.highrel ≥ 3 &&
             (qi.urgency_level = "critical" || qi.urgency_level = "high") then .ok st2
          else processRoutes env fetch detailFetch qi strategy query rest st2

/-- `ComprehensiveScraper.apply_final_filtering` (source lines
2086-2116): document-type and recency filters that are only applied
when they leave something, then the budget cut. -/
def apply_final_filtering (env : ScrapeEnv) (docs : List ComprehensiveDocument)
    (strategy : SearchStrategy) : List ComprehensiveDocument :=
  let docs1 :=
    if !strategy.document_filters.isEmpty then
      let tf := docs.filter
        (fun doc => strategy.document_filters.any (fun dt => isSubstrS dt (pyLower doc.content)))
      if !tf.isEmpty then tf else docs
    else docs
  let docs2 :=
    if strategy.time_filter = some "recent" then
      let tf := docs1.filter
        (fun doc => isSubstrS (toString env.currentYear) doc.content ||
                    isSubstrS (toString (env.currentYear - 1)) doc.content)
      if !tf.isEmpty then tf else docs1
    else docs1
  docs2.take strategy.max_documents

/-- `ComprehensiveScraper.scrape_irdai_comprehensive` (source lines
1638-1762): input guard rails, intent analysis, blocked/invalid
rejection, strategy and route selection, the controller loop with its
perfect-match early return, and final sorting and filtering. -/
def scrape_irdai_comprehensive (env : ScrapeEnv)
    (fetch : String → Option ListingPage)
    (detailFetch : String → Option DetailPageRaw) (query : String) :
    List ComprehensiveDocument :=
  if query = "" ∨ (pyStrip query).length < 3 then []
  else
    let qi := analyze_query query
    if qi.intent_type = "invalid" ∨ qi.intent_type = "blocked" then []
    else
      let strategy := determine_search_strategy qi
      let routes :=
        if !qi.document_types.isEmpty then determine_intelligent_route_enhanced query qi
        else determine_intelligent_route query
      match processRoutes env fetch detailFetch qi strategy query routes
          { processed := 0, docs := [], highrel := 0 } with
      | .error d => [d]
      | .ok st =>
        apply_final_filtering env
          (stableSortDescBy (fun doc => doc.metadata.relevance_score) st.docs) strategy

/-! ## Auxiliary definitions for the claim statements and witnesses -/

/-- The valid intent types. -/
def validIntentTypes : List String :=
  ["specific_document", "latest_updates", "regulatory_guidance", "general_search"]

/-- The invariant of one extraction step: the processed set only
grows, every produced document carries an identifier that was new and
is now recorded, and the produced documents have pairwise distinct
identifiers. -/
def ExtractStepOk (g : List String → List DocInfo × List String) : Prop :=
  ∀ processed : List String,
    (∀ i ∈ processed, i ∈ (g processed).2) ∧
    (∀ d ∈ (g processed).1,
      ∃ i, d.document_id = some i ∧ i ∉ processed ∧ i ∈ (g processed).2) ∧
    ((g processed).1.map DocInfo.document_id).Nodup

/-- A listing page whose one data row links document identifier 777
(used to exhibit cross-route duplication). -/
def dupPage : ListingPage :=
  { tables := [ { rows := [ { cells := [] },
      { cells := [ { text := "regulatory act information page details", hrefs := [] },
                   { text := "", hrefs := ["/doc/document-detail?documentId=777"] } ] } ] } ] }

/-- A fetch serving `dupPage` on the first two priority routes of the
query `"ulip act"`. -/
def dupFetch : String → Option ListingPage := fun u =>
  if u = "https://irdai.gov.in/consolidated-gazette-notified-regulations" ||
     u = "https://irdai.gov.in/guidelines" then some dupPage else none

/-- The detail page of document 777. -/
def dupDetailFetch : String → Option DetailPageRaw := fun u =>
  if u = "https://irdai.gov.in/doc/document-detail?documentId=777" then
    some { title := "insurance act amendment details"
           content := "Provisions relating to insurance act matters and compliance obligations."
           pdfLinks := [] }
  else none

/-- A candidate the loop accepts into the page documents: it passes
quality validation and its recomputed score reaches the intent
threshold (source lines 1705-1731). -/
def acceptsDoc (env : ScrapeEnv) (qi : QueryIntent) (d : DocInfo) : Bool :=
  validate_document_quality (docInfoToDict d) &&
  decide (get_intent_based_threshold qi ≤
    enhanced_relevance_scoring env (d.title ++ " " ++ d.content) qi)

/-- The controller's high-relevance break condition (source lines
1742-1744). -/
def highRelBreak (qi : QueryIntent) (st : LoopState) : Prop :=
  st.highrel ≥ 3 ∧ (qi.urgency_level = "critical" ∨ qi.urgency_level = "high")

/-- A listing page whose one data row links document 888, which will
score 1.0 for the query `"irdai"`. -/
def perfectPage : ListingPage :=
  { tables := [ { rows := [ { cells := [] },
      { cells := [ { text := "irdai insurance regulations list overview", hrefs := [] },
                   { text := "", hrefs := ["/x/document-detail?documentId=888"] } ] } ] } ] }

/-- A fetch serving `perfectPage` on the first priority route of the
query `"irdai"`. -/
def perfectFetch : String → Option ListingPage := fun u =>
  if u = "https://irdai.gov.in/acts" then some perfectPage else none

/-- The detail page of document 888. -/
def perfectDetailFetch : String → Option DetailPageRaw := fun u =>
  if u = "https://irdai.gov.in/x/document-detail?documentId=888" then
    some { title := "irdai regulations and irdai insurance rules"
           content := "This page lists irdai insurance regulations and related official documents."
           pdfLinks := [] }
  else none

/-- The candidate dictionary extraction produces from `perfectPage`. -/
def perfectDocInfo : DocInfo :=
  { url := "https://irdai.gov.in/x/document-detail?documentId=888"
    title := "irdai insurance regulations list overview"
    relevance_score := 1
    extraction_pattern := "intent_aware_table_detail"
    document_id := some "888", pdf_links := []
    content := "This page lists irdai insurance regulations and related official documents." }

/-! ## Lemmas about the relevance scorer -/

/-- A fold whose step never decreases the accumulator is bounded
below by its start. -/
theorem le_foldl_of_step {α : Type} (f : ℚ → α → ℚ) (l : List α)
    (h : ∀ s : ℚ, ∀ a ∈ l, s ≤ f s a) : ∀ init : ℚ, init ≤ l.foldl f init := by
  induction l with
  | nil => intro init; exact le_refl _
  | cons a t ih =>
    intro init
    have h1 : init ≤ f init a := h init a (List.mem_cons_self a t)
    have h2 : f init a ≤ t.foldl f (f init a) :=
      ih (fun s b hb => h s b (List.mem_cons_of_mem a hb)) (f init a)
    simpa using le_trans h1 h2

theorem exactPhraseComponent_nonneg (ql tl : String) : 0 ≤ exactPhraseComponent ql tl := by
  unfold exactPhraseComponent; split <;> norm_num

theorem phrase4Component_nonneg (ql tl : String) : 0 ≤ phrase4Component ql tl := by
  unfold phrase4Component
  dsimp only
  split
  · exact le_foldl_of_step _ _ (fun s i _ => by split <;> simp) 0
  · exact le_refl 0

theorem titleWordComponent_nonneg (ql tl : String) : 0 ≤ titleWordComponent ql tl := by
  unfold titleWordComponent
  dsimp only
  split_ifs <;> norm_num

theorem typeBoostComponent_nonneg (ql tl : String) : 0 ≤ typeBoostComponent ql tl := by
  unfold typeBoostComponent
  refine le_foldl_of_step _ _ (fun s kb hkb => ?_) 0
  have hb : (0 : ℚ) ≤ kb.2 := by
    fin_cases hkb <;> norm_num
  split
  · linarith
  · exact le_refl s

theorem yearMatchComponent_nonneg (query text : String) : 0 ≤ yearMatchComponent query text := by
  unfold yearMatchComponent
  exact le_foldl_of_step _ _ (fun s y _ => by split <;> simp) 0

theorem fuzzyComponent_nonneg (env : ScrapeEnv) (hv : env.Valid) (ql tl : String) :
    0 ≤ fuzzyComponent env ql tl := by
  unfold fuzzyComponent
  split
  · have h1 := (hv ql tl).1.1
    have h2 := (hv ql tl).2.1.1
    have h3 := (hv ql tl).2.2.1
    nlinarith
  · exact le_refl 0

theorem wordMatchComponent_nonneg (ql tl : String) : 0 ≤ wordMatchComponent ql tl := by
  unfold wordMatchComponent
  dsimp only
  split_ifs <;> positivity

/-- The sequential generic-name penalties keep a non-negative score
non-negative. -/
theorem penaltyFold_nonneg (l : List String) (tl : String) :
    ∀ s : ℚ, 0 ≤ s →
      0 ≤ l.foldl (fun acc term => if isSubstrS term tl then max 0 (acc - 5) else acc) s := by
  induction l with
  | nil => intro s hs; simpa using hs
  | cons a t ih =>
    intro s hs
    simp only [List.foldl_cons]
    apply ih
    split
    · exact le_max_left 0 _
    · exact hs

theorem applyGenericPenalties_nonneg (tl : String) (s : ℚ) (hs : 0 ≤ s) :
    0 ≤ applyGenericPenalties tl s :=
  penaltyFold_nonneg genericPenaltyTerms tl s hs

/-- When none of the penalty terms occurs in the text, the penalty
pass is the identity. -/
theorem penaltyFold_id (tl : String) :
    ∀ (l : List String), (∀ term ∈ l, isSubstrS term tl = false) →
      ∀ s : ℚ, l.foldl (fun acc term => if isSubstrS term tl then max 0 (acc - 5) else acc) s = s := by
  intro l
  induction l with
  | nil => intro _ s; rfl
  | cons a t ih =>
    intro h s
    have ha := h a (List.mem_cons_self a t)
    simp only [List.foldl_cons, ha, Bool.false_eq_true, ite_false]
    exact ih (fun b hb => h b (List.mem_cons_of_mem a hb)) s

/-- The un-normalised additive score is non-negative. -/
theorem rawScore_nonneg (env : ScrapeEnv) (hv : env.Valid) (ql tl query text : String) :
    0 ≤ exactPhraseComponent ql tl + phrase4Component ql tl + titleWordComponent ql tl +
        typeBoostComponent ql tl + yearMatchComponent query text +
        fuzzyComponent env ql tl + wordMatchComponent ql tl := by
  have := exactPhraseComponent_nonneg ql tl
  have := phrase4Component_nonneg ql tl
  have := titleWordComponent_nonneg ql tl
  have := typeBoostComponent_nonneg ql tl
  have := yearMatchComponent_nonneg query text
  have := fuzzyComponent_nonneg env hv ql tl
  have := wordMatchComponent_nonneg ql tl
  linarith

/-- C2 (claim): `calculate_relevance_score` always lands in [0, 1]
and is exactly 0 when either argument is the empty string. -/
theorem claimC2_relevance_score_bounds (env : ScrapeEnv) (hv : env.Valid)
    (text query : String) :
    0 ≤ calculate_relevance_score env text query ∧
    calculate_relevance_score env text query ≤ 1 ∧
    ((text = "" ∨ query = "") → calculate_relevance_score env text query = 0) := by
  refine ⟨?_, ?_, ?_⟩
  · unfold calculate_relevance_score
    split
    · exact le_refl 0
    · refine le_min ?_ (by norm_num)
      refine div_nonneg ?_ (by norm_num)
      exact applyGenericPenalties_nonneg _ _ (rawScore_nonneg env hv _ _ query text)
  · unfold calculate_relevance_score
    split
    · norm_num
    · exact min_le_right _ 1
  · intro h
    unfold calculate_relevance_score
    rcases h with h | h <;> subst h <;>
      simp [pyStrip, pyStripList]

/-- C2 witness: the bounds theorem applied at the empty text and at a
concrete scoring instance. -/
theorem claimC2_relevance_score_bounds_witness :
    calculate_relevance_score envNoFuzzy "" "act" = 0 ∧
    0 ≤ calculate_relevance_score envNoFuzzy "irdai insurance act" "act" ∧
    calculate_relevance_score envNoFuzzy "irdai insurance act" "act" ≤ 1 := by
  have hv : envNoFuzzy.Valid := by
    intro a b
    simp [envNoFuzzy]
  exact ⟨(claimC2_relevance_score_bounds envNoFuzzy hv "" "act").2.2 (Or.inl rfl),
         (claimC2_relevance_score_bounds envNoFuzzy hv "irdai insurance act" "act").1,
         (claimC2_relevance_score_bounds envNoFuzzy hv "irdai insurance act" "act").2.1⟩

/-- C8 (claim): exact-match dominance.  For a fixed non-empty query,
a text containing the exact lower-cased query beats a text that does
not, when both texts are otherwise minimal, i.e. every other scoring
feature (4-word phrases, title words, type boosts, years, fuzzy
ratios, word matches, generic-name penalties) contributes nothing for
either text. -/
theorem claimC8_exact_match_dominance (env : ScrapeEnv) (q A B : String)
    (hq : pyStrip q ≠ "") (hA : pyStrip A ≠ "") (hB : pyStrip B ≠ "")
    (hexA : isSubstrS (pyStrip (pyLower q)) (pyStrip (pyLower A)) = true)
    (hexB : isSubstrS (pyStrip (pyLower q)) (pyStrip (pyLower B)) = false)
    (hmin : ∀ t ∈ [A, B],
      phrase4Component (pyStrip (pyLower q)) (pyStrip (pyLower t)) = 0 ∧
      titleWordComponent (pyStrip (pyLower q)) (pyStrip (pyLower t)) = 0 ∧
      typeBoostComponent (pyStrip (pyLower q)) (pyStrip (pyLower t)) = 0 ∧
      yearMatchComponent q t = 0 ∧
      fuzzyComponent env (pyStrip (pyLower q)) (pyStrip (pyLower t)) = 0 ∧
      wordMatchComponent (pyStrip (pyLower q)) (pyStrip (pyLower t)) = 0 ∧
      (∀ term ∈ genericPenaltyTerms, isSubstrS term (pyStrip (pyLower t)) = false)) :
    calculate_relevance_score env B q < calculate_relevance_score env A q := by
  obtain ⟨hA1, hA2, hA3, hA4, hA5, hA6, hA7⟩ := hmin A (by simp)
  obtain ⟨hB1, hB2, hB3, hB4, hB5, hB6, hB7⟩ := hmin B (by simp)
  unfold calculate_relevance_score
  rw [if_neg (by simp [hq, hB]), if_neg (by simp [hq, hA])]
  dsimp only
  unfold exactPhraseComponent
  rw [hexA, hexB]
  simp only [eq_self_iff_true, ite_true, Bool.false_eq_true, ite_false]
  rw [hA1, hA2, hA3, hA4, hA5, hA6, hB1, hB2, hB3, hB4, hB5, hB6]
  unfold applyGenericPenalties
  rw [penaltyFold_id _ _ hA7, penaltyFold_id _ _ hB7]
  norm_num

/-- C8 witness: a concrete query whose words are all too short to
trigger any secondary feature, an exactly matching text A and an
unrelated text B. -/
theorem claimC8_exact_match_dominance_witness :
    calculate_relevance_score envNoFuzzy "ab" "zq xw" <
    calculate_relevance_score envNoFuzzy "zq xw" "zq xw" :=
  claimC8_exact_match_dominance envNoFuzzy "zq xw" "zq xw" "ab"
    (by decide) (by decide) (by decide) (by decide) (by decide)
    (by with_unfolding_all decide)

/-! ## Lemmas about `analyze_query` -/

theorem determineIntentType_mem (q : String) (kws dts : List String) :
    determineIntentType q kws dts ∈ validIntentTypes := by
  unfold determineIntentType
  split_ifs <;> decide

theorem calculateIntentConfidence_bounds (q : String) (kws dts : List String) :
    0 ≤ calculateIntentConfidence q kws dts ∧ calculateIntentConfidence q kws dts ≤ 1 := by
  constructor
  · unfold calculateIntentConfidence
    dsimp only
    refine le_min ?_ (by norm_num)
    have h1 : (0:ℚ) ≤ (if kws.length ≥ 3 then (3:ℚ)/10 else 0) := by split <;> norm_num
    have h2 : (0:ℚ) ≤ (if kws.length ≥ 6 then (2:ℚ)/10 else 0) := by split <;> norm_num
    have h3 : (0:ℚ) ≤ (dts.length : ℚ) * (1/10) := by positivity
    have h4 : (0:ℚ) ≤ confidencePatterns.foldl
        (fun s p => if isSubstrS p q then s + 1/10 else s) 0 :=
      le_foldl_of_step _ _ (fun s p _ => by split <;> linarith) 0
    linarith
  · unfold calculateIntentConfidence
    dsimp only
    exact min_le_right _ 1

/-- `analyze_query` on a well-formed query (non-empty, at least 3
characters after stripping, no denylist term) takes the non-guard
branch. -/
theorem analyze_query_wellformed (q : String) (h1 : q ≠ "")
    (h2 : 3 ≤ (pyStrip q).length)
    (h3 : ∀ p ∈ harmfulPatterns, isSubstrS p (pyStrip (pyLower q)) = false) :
    analyze_query q =
      (let ql := pyStrip (pyLower q)
       let keywords := extractKeywords ql
       let document_types := detectDocumentTypes ql
       let ts := analyzeTimeSensitivity ql
       { intent_type := determineIntentType ql keywords document_types
         keywords := keywords
         document_types := document_types
         time_sensitivity := ts.1
         target_year := ts.2
         urgency_level := calculateUrgency ql
         confidence_score := calculateIntentConfidence ql keywords document_types }) := by
  have hg1 : ¬ (q = "" ∨ (pyStrip q).length < 3) := by
    push_neg
    exact ⟨h1, by omega⟩
  have hg2 : (harmfulPatterns.any fun p => isSubstrS p (pyStrip (pyLower q))) = false := by
    simp only [List.any_eq_false]
    intro p hp
    simp [h3 p hp]
  unfold analyze_query
  rw [if_neg hg1, if_neg (by simp [hg2])]

/-- C9 (amended: the 3-character minimum is measured on the stripped
query): a non-empty query with at least 3 characters after stripping
and no denylist term gets one of the four valid intent types and a
confidence score in [0, 1]. -/
theorem claimC9_analyze_query_valid_range (q : String) (h1 : q ≠ "")
    (h2 : 3 ≤ (pyStrip q).length)
    (h3 : ∀ p ∈ harmfulPatterns, isSubstrS p (pyStrip (pyLower q)) = false) :
    (analyze_query q).intent_type ∈ validIntentTypes ∧
    0 ≤ (analyze_query q).confidence_score ∧
    (analyze_query q).confidence_score ≤ 1 := by
  rw [analyze_query_wellformed q h1 h2 h3]
  refine ⟨determineIntentType_mem _ _ _, ?_, ?_⟩
  · exact (calculateIntentConfidence_bounds _ _ _).1
  · exact (calculateIntentConfidence_bounds _ _ _).2

/-- C9 counterexample: `"ab "` is non-empty, has exactly 3
characters and contains no denylist term, yet `analyze_query`
classifies it as `invalid` (the guard measures the stripped length),
so the claim as stated fails. -/
theorem claimC9_counterexample :
    "ab " ≠ "" ∧ ("ab ").length = 3 ∧
    (∀ p ∈ harmfulPatterns, isSubstrS p (pyLower "ab ") = false) ∧
    (analyze_query "ab ").intent_type = "invalid" ∧
    "invalid" ∉ validIntentTypes := by
  refine ⟨by decide, by decide, by decide, ?_, by decide⟩
  with_unfolding_all decide

/-- C9 witness: the amended theorem applied to the concrete query
`"irdai circular"`. -/
theorem claimC9_analyze_query_valid_range_witness :
    (analyze_query "irdai circular").intent_type ∈ validIntentTypes ∧
    0 ≤ (analyze_query "irdai circular").confidence_score ∧
    (analyze_query "irdai circular").confidence_score ≤ 1 :=
  claimC9_analyze_query_valid_range "irdai circular" (by decide) (by decide) (by decide)

/-! ## Guard-rail lemmas (C3) -/

/-- `Char.ofNat` inverts `toNat` below the surrogate range. -/
theorem toNat_ofNat_of_small (n : Nat) (h : n < 55296) : (Char.ofNat n).toNat = n := by
  unfold Char.ofNat
  rw [dif_pos]
  · simp only [Char.toNat, Char.ofNatAux, UInt32.ofNat', UInt32.toNat]
    simp only [BitVec.toNat_ofNatLt]
  · left
    omega

/-- ASCII lower-casing does not create or destroy whitespace. -/
theorem isPySpace_pyLowerChar (c : Char) : isPySpace (pyLowerChar c) = isPySpace c := by
  unfold pyLowerChar
  split
  · rename_i h
    have hA : 65 ≤ c.toNat := by
      have h1 := h.1
      rw [Char.le_def] at h1
      exact h1
    have hZ : c.toNat ≤ 90 := by
      have h2 := h.2
      rw [Char.le_def] at h2
      exact h2
    have ht : (Char.ofNat (c.toNat + 32)).toNat = c.toNat + 32 :=
      toNat_ofNat_of_small _ (by omega)
    have hfalse : ∀ x : Char, 65 ≤ x.toNat → isPySpace x = false := by
      intro x hx
      unfold isPySpace
      simp only [Bool.or_eq_false_iff, decide_eq_false_iff_not]
      refine ⟨⟨⟨⟨⟨?_, ?_⟩, ?_⟩, ?_⟩, ?_⟩, ?_⟩ <;>
        · intro heq
          rw [heq] at hx
          revert hx
          decide
    rw [hfalse _ (by omega), hfalse _ hA]
  · rfl

/-- Stripping commutes with lower-casing up to length. -/
theorem pyStripList_map_lower (l : List Char) :
    (pyStripList (l.map pyLowerChar)).length = (pyStripList l).length := by
  have hps : (isPySpace ∘ pyLowerChar) = isPySpace := funext isPySpace_pyLowerChar
  unfold pyStripList
  rw [List.dropWhile_map, hps, ← List.map_reverse, List.dropWhile_map, hps,
    ← List.map_reverse, List.length_map]

/-- Lower-casing then stripping has the same length as stripping. -/
theorem pyStrip_pyLower_length (q : String) :
    (pyStrip (pyLower q)).length = (pyStrip q).length :=
  pyStripList_map_lower q.data

/-- A substring is no longer than its host. -/
theorem isSubstrL_length_le (p : List Char) :
    ∀ s, isSubstrL p s = true → p.length ≤ s.length := by
  intro s
  induction s with
  | nil =>
    intro h
    unfold isSubstrL at h
    rw [List.isEmpty_iff] at h
    simp [h]
  | cons c t ih =>
    intro h
    unfold isSubstrL at h
    by_cases hpre : p.isPrefixOf (c :: t) = true
    · exact (List.isPrefixOf_iff_prefix.mp hpre).length_le
    · have h2 : isSubstrL p t = true := by
        simpa [hpre] using h
      exact le_trans (ih h2) (by simp)

/-- `dropWhile` never lengthens a list. -/
theorem length_dropWhile_le' {α : Type} (p : α → Bool) (l : List α) :
    (l.dropWhile p).length ≤ l.length := by
  induction l with
  | nil => simp [List.dropWhile]
  | cons a t ih =>
    rw [List.dropWhile_cons]
    split
    · exact le_trans ih (by simp)
    · simp

/-- Stripping never lengthens a string. -/
theorem pyStrip_length_le (q : String) : (pyStrip q).length ≤ q.length := by
  show (pyStripList q.data).length ≤ q.data.length
  unfold pyStripList
  calc ((q.data.dropWhile isPySpace).reverse.dropWhile isPySpace).reverse.length
      = ((q.data.dropWhile isPySpace).reverse.dropWhile isPySpace).length := by
        rw [List.length_reverse]
    _ ≤ (q.data.dropWhile isPySpace).reverse.length := length_dropWhile_le' _ _
    _ = (q.data.dropWhile isPySpace).length := by rw [List.length_reverse]
    _ ≤ q.data.length := length_dropWhile_le' _ _

/-- A query containing a denylist term has at least 3 characters
after stripping (the shortest denylist term has 4 characters), so
the short-query guard never pre-empts the denylist guard. -/
theorem harmful_implies_not_short (q : String)
    (h : (harmfulPatterns.any fun p => isSubstrS p (pyStrip (pyLower q))) = true) :
    ¬ (q = "" ∨ (pyStrip q).length < 3) := by
  rw [List.any_eq_true] at h
  obtain ⟨p, hp, hsub⟩ := h
  have hlen : 4 ≤ p.length := by fin_cases hp <;> decide
  have h1 : p.data.length ≤ (pyStrip (pyLower q)).data.length :=
    isSubstrL_length_le _ _ hsub
  have h2 : (pyStrip (pyLower q)).length = (pyStrip q).length := pyStrip_pyLower_length q
  have hp1 : p.length = p.data.length := rfl
  have hp2 : (pyStrip (pyLower q)).length = (pyStrip (pyLower q)).data.length := rfl
  intro hc
  rcases hc with hc | hc
  · subst hc
    have hz : (pyStrip (pyLower "")).data.length = 0 := rfl
    omega
  · omega

/-- C3 (claim): empty, too-short or denylisted queries produce an
empty result from the controller for every possible fetch behaviour
(no network access can influence the outcome), and the analyzer
labels them `invalid` (empty or too short) or `blocked` (denylist
term) with confidence 0. -/
theorem claimC3_invalid_query_rejection (env : ScrapeEnv)
    (fetch : String → Option ListingPage) (detailFetch : String → Option DetailPageRaw)
    (q : String) :
    ((q = "" ∨ q.length < 3 ∨
        (harmfulPatterns.any fun p => isSubstrS p (pyStrip (pyLower q))) = true) →
      scrape_irdai_comprehensive env fetch detailFetch q = []) ∧
    ((q = "" ∨ (pyStrip q).length < 3) →
      (analyze_query q).intent_type = "invalid" ∧ (analyze_query q).confidence_score = 0) ∧
    ((harmfulPatterns.any fun p => isSubstrS p (pyStrip (pyLower q))) = true →
      (analyze_query q).intent_type = "blocked" ∧ (analyze_query q).confidence_score = 0) := by
  have hinv : (q = "" ∨ (pyStrip q).length < 3) →
      (analyze_query q).intent_type = "invalid" ∧ (analyze_query q).confidence_score = 0 := by
    intro h
    unfold analyze_query
    rw [if_pos h]
    exact ⟨rfl, rfl⟩
  have hblk : (harmfulPatterns.any fun p => isSubstrS p (pyStrip (pyLower q))) = true →
      (analyze_query q).intent_type = "blocked" ∧ (analyze_query q).confidence_score = 0 := by
    intro h
    unfold analyze_query
    rw [if_neg (harmful_implies_not_short q h), if_pos (by simp [h])]
    exact ⟨rfl, rfl⟩
  refine ⟨?_, hinv, hblk⟩
  intro h
  by_cases hg : q = "" ∨ (pyStrip q).length < 3
  · unfold scrape_irdai_comprehensive
    rw [if_pos hg]
  · have hh : (harmfulPatterns.any fun p => isSubstrS p (pyStrip (pyLower q))) = true := by
      rcases h with h | h | h
      · exact absurd (Or.inl h) hg
      · exact absurd (Or.inr (lt_of_le_of_lt (pyStrip_length_le q) h)) hg
      · exact h
    unfold scrape_irdai_comprehensive
    rw [if_neg hg, if_pos (by rw [(hblk hh).1]; right; rfl)]

/-- C3 witness: the rejection theorem applied to a too-short query
and to a denylisted query, against a fetch function that would
return a page. -/
theorem claimC3_invalid_query_rejection_witness :
    scrape_irdai_comprehensive envNoFuzzy
      (fun _ => some { tables := [] }) (fun _ => none) "hi" = [] ∧
    scrape_irdai_comprehensive envNoFuzzy
      (fun _ => some { tables := [] }) (fun _ => none) "delete all records" = [] ∧
    (analyze_query "hi").intent_type = "invalid" ∧
    (analyze_query "delete all records").intent_type = "blocked" :=
  ⟨(claimC3_invalid_query_rejection envNoFuzzy _ _ "hi").1 (by right; left; decide),
   (claimC3_invalid_query_rejection envNoFuzzy _ _ "delete all records").1
     (by right; right; decide),
   ((claimC3_invalid_query_rejection envNoFuzzy (fun _ => none) (fun _ => none) "hi").2.1
     (by right; decide)).1,
   ((claimC3_invalid_query_rejection envNoFuzzy (fun _ => none) (fun _ => none)
      "delete all records").2.2 (by decide)).1⟩

/-! ## Route-limit and strategy claims (C5, C7) -/

/-- C5 (amended): the intent-aware route planner returns at most 4
section paths for every query; the intent-free planner returns at
most 4 for every non-empty query (the latest/recent override returns
exactly 4, every other non-empty path at most 3), and the empty
query returns the 5 default start pages unsliced. -/
theorem claimC5_route_limits (q : String) (qi : QueryIntent) :
    (determine_intelligent_route_enhanced q qi).length ≤ 4 ∧
    (q ≠ "" → (determine_intelligent_route q).length ≤ 4) ∧
    determine_intelligent_route "" = irdaiStartPages := by
  refine ⟨?_, ?_, by with_unfolding_all rfl⟩
  · unfold determine_intelligent_route_enhanced
    dsimp only
    split_ifs <;> exact List.length_take_le _ _
  · intro hq
    unfold determine_intelligent_route
    rw [if_neg hq]
    dsimp only
    split_ifs
    · norm_num
    · norm_num
    all_goals exact le_trans (List.length_take_le _ _) (by norm_num)

/-- C5 counterexample: the latest/recent override of the intent-free
planner returns 4 routes, refuting the claimed bound of 3. -/
theorem claimC5_counterexample :
    (determine_intelligent_route "latest").length = 4 ∧ ¬ ((4:Nat) ≤ 3) := by
  constructor
  · with_unfolding_all decide
  · decide

/-- C5 witness: the amended bounds at the query `"latest"` and an
arbitrary intent. -/
theorem claimC5_route_limits_witness :
    (determine_intelligent_route_enhanced "latest" (analyze_query "latest")).length ≤ 4 ∧
    (determine_intelligent_route "latest").length ≤ 4 :=
  ⟨(claimC5_route_limits "latest" (analyze_query "latest")).1,
   (claimC5_route_limits "latest" (analyze_query "latest")).2.1 (by decide)⟩

/-- C7 (claim): critical urgency forces an early-stop threshold of
0.90 and a budget of at most 15 documents; high urgency forces 0.93
and at most 25. -/
theorem claimC7_urgency_strategy (qi : QueryIntent) :
    (qi.urgency_level = "critical" →
      (determine_search_strategy qi).early_stop_threshold = 90/100 ∧
      (determine_search_strategy qi).max_documents ≤ 15) ∧
    (qi.urgency_level = "high" →
      (determine_search_strategy qi).early_stop_threshold = 93/100 ∧
      (determine_search_strategy qi).max_documents ≤ 25) := by
  constructor
  · intro h
    unfold determine_search_strategy
    rw [h]
    dsimp only
    rw [if_pos rfl]
    exact ⟨rfl, Nat.min_le_right _ 15⟩
  · intro h
    unfold determine_search_strategy
    rw [h]
    dsimp only
    rw [if_neg (by decide), if_pos rfl]
    exact ⟨rfl, Nat.min_le_right _ 25⟩

/-- C7 witness: the urgency theorem at a concrete critical intent
(the analyzed query `"urgent irdai circular"`) and a concrete high
intent (`"important irdai circular"`). -/
theorem claimC7_urgency_strategy_witness :
    (determine_search_strategy (analyze_query "urgent irdai circular")).early_stop_threshold
        = 90/100 ∧
    (determine_search_strategy (analyze_query "important irdai circular")).early_stop_threshold
        = 93/100 :=
  ⟨((claimC7_urgency_strategy (analyze_query "urgent irdai circular")).1
      (by with_unfolding_all decide)).1,
   ((claimC7_urgency_strategy (analyze_query "important irdai circular")).2
      (by with_unfolding_all decide)).1⟩

/-! ## Exact-title boost (C6) -/

/-- C6 (amended: the exact-title boost belongs to
`extract_irdai_document_detail_page` only; the intent-aware enhanced
variant applies no such boost): in the basic detail-page extraction,
a non-empty query and a non-empty extracted title that contain one
another after punctuation normalisation force a relevance score of at
least 0.95, whatever the additive formula produced. -/
theorem claimC6_exact_title_boost (env : ScrapeEnv) (title content query : String)
    (hq : query ≠ "") (ht : title ≠ "")
    (hc : exactTitleCondition query title = true) :
    95/100 ≤ detailPageRelevance env title content query := by
  unfold detailPageRelevance
  rw [if_pos (by simp [hq, ht, hc])]
  exact le_max_right _ _

/-- C6 counterexample: in the intent-aware enhanced detail
extraction, a non-empty title that is (after punctuation
normalisation) contained in the non-empty query still receives a
score below 0.95, because that code path recomputes the additive
intent score and never applies the boost. -/
theorem claimC6_counterexample :
    "solvency margin framework overview zzaa zzbb zzcc zzdd zzee zzff zzgg zzhh" ≠ "" ∧
    "solvency margin framework overview" ≠ "" ∧
    exactTitleCondition
      "solvency margin framework overview zzaa zzbb zzcc zzdd zzee zzff zzgg zzhh"
      "solvency margin framework overview" = true ∧
    detailPageRelevanceEnhanced envNoFuzzy
      (analyze_query
        "solvency margin framework overview zzaa zzbb zzcc zzdd zzee zzff zzgg zzhh")
      "solvency margin framework overview" "General information page." = 13/30 ∧
    (13:ℚ)/30 < 95/100 := by
  refine ⟨by decide, by decide, by decide, ?_, by norm_num⟩
  with_unfolding_all decide

/-- C6 witness: the boost theorem at a concrete query and title that
match exactly up to punctuation and case. -/
theorem claimC6_exact_title_boost_witness :
    95/100 ≤ detailPageRelevance envNoFuzzy "Payment of Annuity!" "short" "payment of annuity" :=
  claimC6_exact_title_boost envNoFuzzy "Payment of Annuity!" "short" "payment of annuity"
    (by decide) (by decide) (by decide)

/-! ## Totality of quality validation (C10) -/

/-- A truthy defaulted lookup means the key is present. -/
theorem find_of_truthy (d : PyDict) (k : String)
    (h : pyTruthy (pyGet d k .vNone) = true) :
    d.find? (fun kv => kv.1 = k) ≠ none := by
  intro hf
  unfold pyGet at h
  rw [hf] at h
  exact absurd h (by decide)

/-- A validation run that accepts a candidate saw all four fields. -/
theorem validate_ok_true_fields (d : PyDict)
    (h : validateDocumentQualityBody d = .ok true) :
    d.find? (fun kv => kv.1 = "title") ≠ none ∧
    d.find? (fun kv => kv.1 = "url") ≠ none ∧
    d.find? (fun kv => kv.1 = "content") ≠ none ∧
    d.find? (fun kv => kv.1 = "relevance_score") ≠ none := by
  unfold validateDocumentQualityBody at h
  by_cases h1 : (!pyTruthy (pyGet d "title" .vNone) ||
      !pyTruthy (pyGet d "url" .vNone)) = true
  · rw [if_pos h1] at h
    exact absurd h (by simp)
  · rw [if_neg h1] at h
    have h1' := h1
    rw [Bool.or_eq_true] at h1'
    push_neg at h1'
    have htitle : pyTruthy (pyGet d "title" .vNone) = true := by
      have := h1'.1
      simp only [Bool.not_eq_true'] at this ⊢
      simpa using this
    have hurl : pyTruthy (pyGet d "url" .vNone) = true := by
      have := h1'.2
      simpa using this
    refine ⟨find_of_truthy d _ htitle, find_of_truthy d _ hurl, ?_, ?_⟩
    · -- content must be present: the default empty string fails the length check
      intro hf
      unfold pyGet at h
      rw [hf] at h
      simp only [asStr] at h
      rw [if_pos (by decide)] at h
      exact absurd h (by simp)
    · -- relevance must be present: the default 0 fails the threshold check
      intro hf
      rcases hc : asStr (pyGet d "content" (.vStr "")) with e | content
      · rw [hc] at h
        exact absurd h (by simp)
      · rw [hc] at h
        dsimp only at h
        by_cases hlen : (pyStrip content).length < 50
        · rw [if_pos hlen] at h
          exact absurd h (by simp)
        · rw [if_neg hlen] at h
          rcases hu : asStr (pyGet d "url" (.vStr "")) with e | url
          · rw [hu] at h
            exact absurd h (by simp)
          · rw [hu] at h
            dsimp only at h
            by_cases hpre : (!("http://".data.isPrefixOf url.data ||
                "https://".data.isPrefixOf url.data)) = true
            · rw [if_pos hpre] at h
              exact absurd h (by simp)
            · rw [if_neg hpre] at h
              rcases hti : asStr (pyGet d "title" (.vStr "")) with e | title
              · rw [hti] at h
                exact absurd h (by simp)
              · rw [hti] at h
                dsimp only at h
                by_cases hspam :
                    (spamIndicators.any fun ind => isSubstrS ind (pyLower title)) = true
                · rw [if_pos hspam] at h
                  exact absurd h (by simp)
                · rw [if_neg hspam] at h
                  unfold pyGet at h
                  rw [hf] at h
                  simp only [asNum] at h
                  rw [if_pos (by norm_num)] at h
                  exact absurd h (by simp)

/-- C10 (claim): quality validation is total: it yields a Boolean on
every dictionary, a raised internal exception yields `false`, and a
dictionary missing any of the title, url, content or relevance_score
fields is rejected rather than aborting the search. -/
theorem claimC10_validate_quality_total (d : PyDict) :
    (validate_document_quality d = true ∨ validate_document_quality d = false) ∧
    (∀ e : Unit, validateDocumentQualityBody d = .error e →
      validate_document_quality d = false) ∧
    ((d.find? (fun kv => kv.1 = "title") = none ∨
      d.find? (fun kv => kv.1 = "url") = none ∨
      d.find? (fun kv => kv.1 = "content") = none ∨
      d.find? (fun kv => kv.1 = "relevance_score") = none) →
      validate_document_quality d = false) := by
  refine ⟨?_, ?_, ?_⟩
  · rcases Bool.dichotomy (validate_document_quality d) with h | h
    · exact Or.inr h
    · exact Or.inl h
  · intro e he
    unfold validate_document_quality
    rw [he]
  · intro hmiss
    rcases hv : validateDocumentQualityBody d with e | b
    · unfold validate_document_quality
      rw [hv]
    · rcases Bool.dichotomy b with hb | hb
      · unfold validate_document_quality
        rw [hv, hb]
      · subst hb
        obtain ⟨f1, f2, f3, f4⟩ := validate_ok_true_fields d hv
        rcases hmiss with hm | hm | hm | hm
        · exact absurd hm f1
        · exact absurd hm f2
        · exact absurd hm f3
        · exact absurd hm f4

/-- C10 witness: the totality theorem at the empty dictionary (all
fields missing) and at a dictionary whose non-string title raises
inside the checks. -/
theorem claimC10_validate_quality_total_witness :
    validate_document_quality [] = false ∧
    validate_document_quality
      [("title", .vNum 1), ("url", .vStr "https://irdai.gov.in/x"),
       ("content", .vStr "a sufficiently long content string for the length check, over fifty")]
      = false := by
  constructor
  · exact (claimC10_validate_quality_total []).2.2 (Or.inl rfl)
  · refine (claimC10_validate_quality_total _).2.1 () ?_
    with_unfolding_all rfl

/-! ## Per-identifier deduplication (C4) -/

theorem processRowLinks_invariant (env : ScrapeEnv) (qi : QueryIntent)
    (detailFetch : String → Option DetailPageRaw) (candidates : List (String × ℚ)) :
    ∀ links : List String,
      ExtractStepOk (fun processed =>
        processRowLinks env qi detailFetch candidates links processed) := by
  intro links
  induction links with
  | nil =>
    intro processed
    refine ⟨fun i hi => hi, by simp [processRowLinks], by simp [processRowLinks]⟩
  | cons link rest ih =>
    intro processed
    simp only [processRowLinks]
    rcases hfd : findDocumentId link.data with _ | docId
    · exact ih processed
    · dsimp only
      by_cases hcon : processed.contains docId = true
      · rw [if_pos hcon]
        exact ih processed
      · rw [if_neg hcon]
        have hdocnot : docId ∉ processed := by
          intro hmem
          exact hcon (List.elem_eq_true_of_mem hmem)
        have ihp := ih (docId :: processed)
        rcases hdd : extract_irdai_document_detail_page_enhanced env qi detailFetch link
          with _ | dd
        · -- detail fetch failed: nothing emitted, set keeps the new id
          refine ⟨fun i hi => ihp.1 i (List.mem_cons_of_mem _ hi), ?_, ihp.2.2⟩
          intro d hd
          obtain ⟨i, hid, hnot, hin⟩ := ihp.2.1 d hd
          exact ⟨i, hid, fun hmem => hnot (List.mem_cons_of_mem _ hmem), hin⟩
        · dsimp only
          split
          · -- the candidate is accepted
            refine ⟨fun i hi => ihp.1 i (List.mem_cons_of_mem _ hi), ?_, ?_⟩
            · intro d hd
              rcases List.mem_cons.mp hd with hd | hd
              · subst hd
                exact ⟨docId, rfl, hdocnot, ihp.1 docId (List.mem_cons_self _ _)⟩
              · obtain ⟨i, hid, hnot, hin⟩ := ihp.2.1 d hd
                exact ⟨i, hid, fun hmem => hnot (List.mem_cons_of_mem _ hmem), hin⟩
            · simp only [List.map_cons, List.nodup_cons]
              refine ⟨?_, ihp.2.2⟩
              intro hmem
              rw [List.mem_map] at hmem
              obtain ⟨d, hd, hid⟩ := hmem
              obtain ⟨i, hid', hnot, _⟩ := ihp.2.1 d hd
              rw [hid'] at hid
              have : i = docId := by
                injection hid.symm with h
                exact h.symm
              exact hnot (this ▸ List.mem_cons_self docId processed)
          · -- below threshold or empty title: nothing emitted
            refine ⟨fun i hi => ihp.1 i (List.mem_cons_of_mem _ hi), ?_, ihp.2.2⟩
            intro d hd
            obtain ⟨i, hid, hnot, hin⟩ := ihp.2.1 d hd
            exact ⟨i, hid, fun hmem => hnot (List.mem_cons_of_mem _ hmem), hin⟩

theorem processRow_invariant (env : ScrapeEnv) (qi : QueryIntent)
    (detailFetch : String → Option DetailPageRaw) (baseUrl : String) (row : PageRow) :
    ExtractStepOk (processRow env qi detailFetch baseUrl row) := by
  intro processed
  unfold processRow
  split
  · exact ⟨fun i hi => hi, by simp, by simp⟩
  · exact processRowLinks_invariant env qi detailFetch _ _ processed

/-- The append-and-grow fold preserves and propagates the
deduplication invariant. -/
theorem foldExtract_invariant {β : Type}
    (step : β → List String → List DocInfo × List String) (l : List β)
    (hstep : ∀ b ∈ l, ExtractStepOk (step b)) :
    ∀ acc : List DocInfo × List String,
      (acc.1.map DocInfo.document_id).Nodup →
      (∀ d ∈ acc.1, ∃ i, d.document_id = some i ∧ i ∈ acc.2) →
      ((l.foldl (fun a b => let p := step b a.2; (a.1 ++ p.1, p.2)) acc).1.map
          DocInfo.document_id).Nodup ∧
      (∀ d ∈ (l.foldl (fun a b => let p := step b a.2; (a.1 ++ p.1, p.2)) acc).1,
        ∃ i, d.document_id = some i ∧
          i ∈ (l.foldl (fun a b => let p := step b a.2; (a.1 ++ p.1, p.2)) acc).2) ∧
      (∀ i ∈ acc.2, i ∈ (l.foldl (fun a b => let p := step b a.2; (a.1 ++ p.1, p.2)) acc).2) ∧
      (∀ d ∈ (l.foldl (fun a b => let p := step b a.2; (a.1 ++ p.1, p.2)) acc).1,
        d ∈ acc.1 ∨ ∃ i, d.document_id = some i ∧ i ∉ acc.2 ∧
          i ∈ (l.foldl (fun a b => let p := step b a.2; (a.1 ++ p.1, p.2)) acc).2) := by
  induction l with
  | nil =>
    intro acc h1 h2
    exact ⟨h1, fun d hd => h2 d hd, fun i hi => hi, fun d hd => Or.inl hd⟩
  | cons b bs ih =>
    intro acc h1 h2
    simp only [List.foldl_cons]
    obtain ⟨hs1, hs2, hs3⟩ := hstep b (List.mem_cons_self b bs)  acc.2
    have hstep' : ∀ c ∈ bs, ExtractStepOk (step c) :=
      fun c hc => hstep c (List.mem_cons_of_mem b hc)
    set p := step b acc.2 with hp
    have hnodup : ((acc.1 ++ p.1).map DocInfo.document_id).Nodup := by
      rw [List.map_append, List.nodup_append]
      refine ⟨h1, hs3, ?_⟩
      intro x hx hx'
      rw [List.mem_map] at hx hx'
      obtain ⟨d, hd, hid⟩ := hx
      obtain ⟨d', hd', hid'⟩ := hx'
      obtain ⟨i, hi1, hi2⟩ := h2 d hd
      obtain ⟨i', hj1, hj2, hj3⟩ := hs2 d' hd'
      rw [hi1] at hid
      rw [hj1] at hid'
      have : i = i' := by
        have := hid.trans hid'.symm
        injection this
      exact hj2 (this ▸ hi2)
    have hmem : ∀ d ∈ acc.1 ++ p.1, ∃ i, d.document_id = some i ∧ i ∈ p.2 := by
      intro d hd
      rcases List.mem_append.mp hd with hd | hd
      · obtain ⟨i, hi1, hi2⟩ := h2 d hd
        exact ⟨i, hi1, hs1 i hi2⟩
      · obtain ⟨i, hi1, _, hi3⟩ := hs2 d hd
        exact ⟨i, hi1, hi3⟩
    obtain ⟨c1, c2, c3, c4⟩ := ih hstep' (acc.1 ++ p.1, p.2) hnodup hmem
    refine ⟨c1, c2, ?_, ?_⟩
    · intro i hi
      exact c3 i (hs1 i hi)
    · intro d hd
      rcases c4 d hd with hd' | ⟨i, hi1, hi2, hi3⟩
      · rcases List.mem_append.mp hd' with hd'' | hd''
        · exact Or.inl hd''
        · obtain ⟨i, hi1, hi2, hi3⟩ := hs2 d hd''
          exact Or.inr ⟨i, hi1, hi2, c3 i hi3⟩
      · exact Or.inr ⟨i, hi1, fun hmem => hi2 (hs1 i hmem), hi3⟩

theorem processTable_invariant (env : ScrapeEnv) (qi : QueryIntent)
    (detailFetch : String → Option DetailPageRaw) (baseUrl : String) (table : PageTable) :
    ExtractStepOk (processTable env qi detailFetch baseUrl table) := by
  intro processed
  unfold processTable
  obtain ⟨c1, c2, c3, c4⟩ :=
    foldExtract_invariant (processRow env qi detailFetch baseUrl) _
      (fun row _ => processRow_invariant env qi detailFetch baseUrl row)
      ([], processed) (by simp) (by simp)
  refine ⟨c3, ?_, c1⟩
  intro d hd
  rcases c4 d hd with hd' | ⟨i, hi1, hi2, hi3⟩
  · exact absurd hd' (List.not_mem_nil d)
  · exact ⟨i, hi1, hi2, hi3⟩

/-- C4 (amended: the deduplication is per extraction call, i.e. per
fetched listing page; identifiers are not shared across routes):
one run of `extract_irdai_documents_enhanced_with_intent` over a page
never returns two candidates with the same document identifier, even
if the page links the same identifier many times. -/
theorem claimC4_extraction_dedup (env : ScrapeEnv) (qi : QueryIntent)
    (detailFetch : String → Option DetailPageRaw) (baseUrl : String) (page : ListingPage) :
    ((extract_irdai_documents_enhanced_with_intent env qi detailFetch baseUrl page).map
      DocInfo.document_id).Nodup := by
  unfold extract_irdai_documents_enhanced_with_intent
  exact (foldExtract_invariant (processTable env qi detailFetch baseUrl) _
    (fun t _ => processTable_invariant env qi detailFetch baseUrl t)
    ([], []) (by simp) (by simp)).1

set_option maxRecDepth 100000 in
/-- C4 counterexample: the `processed_doc_ids` set is local to each
page extraction, so when two routes serve a page linking the same
document identifier the search returns two candidates for identifier
777, refuting the claimed per-search uniqueness. -/
theorem claimC4_counterexample :
    ((scrape_irdai_comprehensive envNoFuzzy dupFetch dupDetailFetch "ulip act").map
        (fun d => d.metadata.document_id)) = [some "777", some "777"] ∧
    ¬ ((scrape_irdai_comprehensive envNoFuzzy dupFetch dupDetailFetch "ulip act").map
        (fun d => d.metadata.document_id)).Nodup := by
  constructor
  · with_unfolding_all decide
  · with_unfolding_all decide

/-! ## Early-stop behaviour of the controller loop (C1) -/

/-- If every candidate before `c` fails validation or scores below
the early-stop threshold, the accepted ones do not exhaust the
budget, and `c` validates with a score at or above the threshold,
then candidate processing aborts with exactly the perfect-match
document built from `c`. -/
theorem processDocInfos_early_stop (env : ScrapeEnv) (qi : QueryIntent)
    (strategy : SearchStrategy) (query pageUrl : String) (c : DocInfo) (post : List DocInfo)
    (hcv : validate_document_quality (docInfoToDict c) = true)
    (hcs : enhanced_relevance_scoring env (c.title ++ " " ++ c.content) qi ≥
      strategy.early_stop_threshold) :
    ∀ (pre : List DocInfo) (st : LoopState),
      (∀ d ∈ pre, validate_document_quality (docInfoToDict d) = false ∨
        enhanced_relevance_scoring env (d.title ++ " " ++ d.content) qi <
          strategy.early_stop_threshold) →
      st.processed + (pre.filter (acceptsDoc env qi)).length < strategy.max_documents →
      processDocInfos env qi strategy query pageUrl (pre ++ c :: post) st =
        .error (create_enhanced_document env
          { c with relevance_score :=
              enhanced_relevance_scoring env (c.title ++ " " ++ c.content) qi }
          irdaiConfig pageUrl query qi true) := by
  intro pre
  induction pre with
  | nil =>
    intro st hpre hbudget
    have hlen : (List.filter (acceptsDoc env qi) ([] : List DocInfo)).length = 0 := rfl
    have h0 : ¬ (st.processed ≥ strategy.max_documents) := by omega
    simp only [List.nil_append, processDocInfos]
    rw [if_neg h0, if_neg (by rw [hcv]; simp)]
    rw [if_pos hcs]
  | cons d pre' ih =>
    intro st hpre hbudget
    have hmono : (List.filter (acceptsDoc env qi) pre').length ≤
        (List.filter (acceptsDoc env qi) (d :: pre')).length := by
      rw [List.filter_cons]
      split <;> simp
    have h0 : ¬ (st.processed ≥ strategy.max_documents) := by omega
    have hpre' : ∀ e ∈ pre', validate_document_quality (docInfoToDict e) = false ∨
        enhanced_relevance_scoring env (e.title ++ " " ++ e.content) qi <
          strategy.early_stop_threshold :=
      fun e he => hpre e (List.mem_cons_of_mem d he)
    simp only [List.cons_append, processDocInfos]
    rw [if_neg h0]
    rcases Bool.dichotomy (validate_document_quality (docInfoToDict d)) with hv | hv
    · rw [hv]
      simp only [Bool.not_false, if_true]
      have hfd : acceptsDoc env qi d = false := by
        simp [acceptsDoc, hv]
      rw [List.filter_cons_of_neg (by simp [hfd])] at hbudget
      exact ih st hpre' hbudget
    · rw [hv]
      simp only [Bool.not_true, Bool.false_eq_true, if_false]
      have hsc : enhanced_relevance_scoring env (d.title ++ " " ++ d.content) qi <
          strategy.early_stop_threshold := by
        rcases hpre d (List.mem_cons_self d pre') with h | h
        · rw [hv] at h
          exact absurd h (by simp)
        · exact h
      rw [if_neg (not_le.mpr hsc)]
      by_cases hmin : enhanced_relevance_scoring env (d.title ++ " " ++ d.content) qi ≥
          get_intent_based_threshold qi
      · rw [if_pos hmin]
        have hfd : acceptsDoc env qi d = true := by
          simp only [acceptsDoc, hv, Bool.true_and, decide_eq_true_eq]
          exact hmin
        rw [List.filter_cons_of_pos (by simp [hfd])] at hbudget
        simp only [List.length_cons] at hbudget
        exact ih _ hpre' (by simp only [LoopState.mk.injEq]; omega)
      · rw [if_neg hmin]
        have hfd : acceptsDoc env qi d = false := by
          simp only [acceptsDoc, hv, Bool.true_and, decide_eq_false_iff_not]
          exact hmin
        rw [List.filter_cons_of_neg (by simp [hfd])] at hbudget
        exact ih st hpre' hbudget

/-- If the route loop processed a route prefix normally, reaching a
state that is under budget and not breaking, then processing the
full route list continues on the suffix from that state. -/
theorem processRoutes_append (env : ScrapeEnv) (fetch : String → Option ListingPage)
    (detailFetch : String → Option DetailPageRaw) (qi : QueryIntent)
    (strategy : SearchStrategy) (query : String) (ys : List String) (s : LoopState)
    (hproc : s.processed < strategy.max_documents)
    (hbreak : ¬ highRelBreak qi s) :
    ∀ (xs : List String) (st : LoopState),
      processRoutes env fetch detailFetch qi strategy query xs st = .ok s →
      processRoutes env fetch detailFetch qi strategy query (xs ++ ys) st =
        processRoutes env fetch detailFetch qi strategy query ys s := by
  intro xs
  induction xs with
  | nil =>
    intro st hx
    have : st = s := by
      simpa [processRoutes] using hx
    rw [List.nil_append, this]
  | cons u xs' ih =>
    intro st hx
    simp only [processRoutes] at hx
    simp only [List.cons_append, processRoutes]
    by_cases h0 : st.processed ≥ strategy.max_documents
    · rw [if_pos h0] at hx
      have : st = s := by
        simpa using hx
      subst this
      exact absurd hproc (by omega)
    · rw [if_neg h0] at hx
      rw [if_neg h0]
      rcases hf : fetch (urljoinModel irdaiConfig.base_url u) with _ | page
      · rw [hf] at hx
        dsimp only at hx ⊢
        exact ih st hx
      · rw [hf] at hx
        dsimp only at hx ⊢
        rcases hpd : processDocInfos env qi strategy query
            (urljoinModel irdaiConfig.base_url u)
            (extract_irdai_documents_enhanced_with_intent env qi detailFetch
              irdaiConfig.base_url page) st with d | st2
        · rw [hpd] at hx
          dsimp only at hx
          exact absurd hx (by simp)
        · rw [hpd] at hx
          dsimp only at hx ⊢
          by_cases hb : (st2.highrel ≥ 3 &&
              (qi.urgency_level = "critical" || qi.urgency_level = "high")) = true
          · rw [if_pos hb] at hx
            have hse : st2 = s := by
              simpa using hx
            subst hse
            rw [Bool.and_eq_true, Bool.or_eq_true] at hb
            exact absurd ⟨by simpa using hb.1, by simpa using hb.2⟩ hbreak
          · rw [if_neg hb] at hx
            rw [if_neg hb]
            exact ih st2 hx

/-- Entering a route whose page contains a qualifying candidate
(preceded only by non-qualifying ones, within budget) aborts the
route loop with exactly the perfect-match document. -/
theorem processRoutes_early_stop_head (env : ScrapeEnv)
    (fetch : String → Option ListingPage) (detailFetch : String → Option DetailPageRaw)
    (qi : QueryIntent) (strategy : SearchStrategy) (query : String)
    (u : String) (rest : List String) (page : ListingPage)
    (pre : List DocInfo) (c : DocInfo) (post : List DocInfo) (s : LoopState)
    (hproc : s.processed < strategy.max_documents)
    (hfetch : fetch (urljoinModel irdaiConfig.base_url u) = some page)
    (hdocs : extract_irdai_documents_enhanced_with_intent env qi detailFetch
      irdaiConfig.base_url page = pre ++ c :: post)
    (hpre : ∀ d ∈ pre, validate_document_quality (docInfoToDict d) = false ∨
      enhanced_relevance_scoring env (d.title ++ " " ++ d.content) qi <
        strategy.early_stop_threshold)
    (hbudget : s.processed + (pre.filter (acceptsDoc env qi)).length <
      strategy.max_documents)
    (hcv : validate_document_quality (docInfoToDict c) = true)
    (hcs : enhanced_relevance_scoring env (c.title ++ " " ++ c.content) qi ≥
      strategy.early_stop_threshold) :
    processRoutes env fetch detailFetch qi strategy query (u :: rest) s =
      .error (create_enhanced_document env
        { c with relevance_score :=
            enhanced_relevance_scoring env (c.title ++ " " ++ c.content) qi }
        irdaiConfig (urljoinModel irdaiConfig.base_url u) query qi true) := by
  simp only [processRoutes]
  rw [if_neg (by omega), hfetch]
  dsimp only
  rw [hdocs,
    processDocInfos_early_stop env qi strategy query (urljoinModel irdaiConfig.base_url u)
      c post hcv hcs pre s hpre hbudget]

/-- C1 (claim): whenever the controller reaches a quality-validated
candidate whose recomputed intent-aware score meets the strategy's
early-stop threshold — i.e. the candidates processed before it on
its route all failed validation or scored below the threshold, the
budget was not yet exhausted, and the routes before its route were
processed without a perfect match or break — the whole invocation
returns exactly the single perfect-match document built from that
candidate; the remaining candidates and routes are never touched
(the result does not depend on them). -/
theorem claimC1_early_stop_perfect_match (env : ScrapeEnv)
    (fetch : String → Option ListingPage) (detailFetch : String → Option DetailPageRaw)
    (q : String) (upre : List String) (u : String) (urest : List String)
    (page : ListingPage) (pre : List DocInfo) (c : DocInfo) (post : List DocInfo)
    (s : LoopState)
    (h1 : q ≠ "") (h2 : 3 ≤ (pyStrip q).length)
    (h3 : ∀ p ∈ harmfulPatterns, isSubstrS p (pyStrip (pyLower q)) = false)
    (hroutes : (if !(analyze_query q).document_types.isEmpty then
        determine_intelligent_route_enhanced q (analyze_query q)
      else determine_intelligent_route q) = upre ++ u :: urest)
    (hupre : processRoutes env fetch detailFetch (analyze_query q)
        (determine_search_strategy (analyze_query q)) q upre
        { processed := 0, docs := [], highrel := 0 } = .ok s)
    (hproc : s.processed < (determine_search_strategy (analyze_query q)).max_documents)
    (hbreak : ¬ highRelBreak (analyze_query q) s)
    (hfetch : fetch (urljoinModel irdaiConfig.base_url u) = some page)
    (hdocs : extract_irdai_documents_enhanced_with_intent env (analyze_query q) detailFetch
        irdaiConfig.base_url page = pre ++ c :: post)
    (hpre : ∀ d ∈ pre,
      validate_document_quality (docInfoToDict d) = false ∨
      enhanced_relevance_scoring env (d.title ++ " " ++ d.content) (analyze_query q) <
        (determine_search_strategy (analyze_query q)).early_stop_threshold)
    (hbudget : s.processed + (pre.filter (acceptsDoc env (analyze_query q))).length <
        (determine_search_strategy (analyze_query q)).max_documents)
    (hcv : validate_document_quality (docInfoToDict c) = true)
    (hcs : enhanced_relevance_scoring env (c.title ++ " " ++ c.content) (analyze_query q) ≥
        (determine_search_strategy (analyze_query q)).early_stop_threshold) :
    scrape_irdai_comprehensive env fetch detailFetch q =
      [create_enhanced_document env
        { c with relevance_score :=
            enhanced_relevance_scoring env (c.title ++ " " ++ c.content) (analyze_query q) }
        irdaiConfig (urljoinModel irdaiConfig.base_url u) q (analyze_query q) true] := by
  have hguard : ¬ (q = "" ∨ (pyStrip q).length < 3) := by
    push_neg
    exact ⟨h1, by omega⟩
  have hmem : (analyze_query q).intent_type ∈ validIntentTypes := by
    rw [analyze_query_wellformed q h1 h2 h3]
    exact determineIntentType_mem _ _ _
  have hblk : ¬ ((analyze_query q).intent_type = "invalid" ∨
      (analyze_query q).intent_type = "blocked") := by
    intro hc
    rcases hc with hc | hc <;> rw [hc] at hmem <;> exact absurd hmem (by decide)
  unfold scrape_irdai_comprehensive
  rw [if_neg hguard]
  dsimp only
  rw [if_neg hblk]
  rw [hroutes, processRoutes_append env fetch detailFetch (analyze_query q)
      (determine_search_strategy (analyze_query q)) q (u :: urest) s hproc hbreak upre _ hupre,
    processRoutes_early_stop_head env fetch detailFetch (analyze_query q)
      (determine_search_strategy (analyze_query q)) q u urest page pre c post s hproc hfetch
      hdocs hpre hbudget hcv hcs]

set_option maxRecDepth 200000 in
/-- C1 witness: the early-stop theorem at the query `"irdai"`, whose
first route serves a candidate scoring 1.0 ≥ 0.95: the invocation
returns that single perfect-match document. -/
theorem claimC1_early_stop_perfect_match_witness :
    scrape_irdai_comprehensive envNoFuzzy perfectFetch perfectDetailFetch "irdai" =
      [create_enhanced_document envNoFuzzy
        { perfectDocInfo with relevance_score :=
            (enhanced_relevance_scoring envNoFuzzy
              (perfectDocInfo.title ++ " " ++ perfectDocInfo.content)
              (analyze_query "irdai")) }
        irdaiConfig (urljoinModel irdaiConfig.base_url "/acts") "irdai"
        (analyze_query "irdai") true] :=
  claimC1_early_stop_perfect_match envNoFuzzy perfectFetch perfectDetailFetch "irdai"
    [] "/acts" ["/rules", "/consolidated-gazette-notified-regulations"]
    perfectPage [] perfectDocInfo [] { processed := 0, docs := [], highrel := 0 }
    (by decide) (by decide) (by decide)
    (by with_unfolding_all decide)
    rfl
    (by with_unfolding_all decide)
    (fun hb => absurd hb.1 (by decide))
    (by with_unfolding_all decide)
    (by with_unfolding_all decide)
    (by simp)
    (by with_unfolding_all decide)
    (by with_unfolding_all decide)
    (by with_unfolding_all decide)

end IrdaiRag
